import Mathlib

/-!
# Lua RTOS timer module (`components/lua_rtos/Lua/modules/tmr.c`)

A shallow embedding of the hardware-timer-to-script-callback dispatch of the
`tmr` module: the static table `callbacks`, the trampoline `callback_func`,
the constructors `ltmr_hw_attach` / `ltmr_sw_attach` / `ltmr_attach`, the handle
operations `ltmr_start` / `ltmr_stop` and the initialiser `luaopen_tmr`.

The C functions become state-passing functions over `World`.  A C function
that leaves through `luaL_exception`, `luaL_driver_error` or an argument check
returns the corresponding `Result` together with the state reached so far.
`lua_Integer` values are `Int`; the conversions to the C locals `int id` and
`uint32_t micros` are the explicit wrap-arounds `toInt32` and `toUInt32`.
-/

namespace Tmr

/-! ## Constants of `lauxlib.h` / `lua.h` -/

/-- The "no reference" sentinel of `lauxlib.h`. -/
def LUA_NOREF : Int := -2

/-- The reference `luaL_ref` returns for `nil`. -/
def LUA_REFNIL : Int := -1

/-- Status of a protected call that raised no error. -/
def LUA_OK : Int := 0

/-- Status of a protected call that raised a runtime error. -/
def LUA_ERRRUN : Int := 2

/-! ## C integer conversions -/

/-- Conversion of a `lua_Integer` to the C type `int` (32 bits, two's complement). -/
def toInt32 (x : Int) : Int := (x + 2147483648) % 4294967296 - 2147483648

/-- Conversion of a `lua_Integer` to the C type `uint32_t`. -/
def toUInt32 (x : Int) : Nat := (x % 4294967296).toNat

/-! ## Data model -/

/-- Lua values, as far as the module tells them apart. -/
inductive Value where
  | nil
  | integer (n : Int)
  | function (f : Nat)
  | thread (t : Nat)
  | userdata (p : Nat)
  | other (tag : Nat)
  deriving DecidableEq, Repr

/-- The two kinds of timer handle (`tmr.h`): hardware backed and software only. -/
inductive tmr_type where
  | TmrHW
  | TmrSW
  deriving DecidableEq, Repr

/-- The block behind a timer handle.  A field that the C code has not written
yet is `none`; `metatable` tells whether the `"tmr.timer"` metatable has been
set on the userdata object. -/
structure tmr_userdata where
  type : Option tmr_type
  unit : Option Int
  metatable : Bool
  deriving DecidableEq, Repr

/-- One entry of the static table `callbacks` (`L = none` is the NULL pointer). -/
structure tmr_callback_t where
  callback : Int
  L : Option Nat
  deriving DecidableEq, Repr

/-- Error codes raised through `luaL_exception`. -/
inductive TimerErr where
  | TIMER_ERR_INVALID_PERIOD
  | TIMER_ERR_NOT_ENOUGH_MEMORY
  deriving DecidableEq, Repr

/-- How a C function of the module leaves. -/
inductive Result where
  | returned (nresults : Nat)
  | exception (code : TimerErr)
  | driver_error (e : Nat)
  | arg_error (arg : Nat)
  | undefined
  deriving DecidableEq, Repr

/-- The fire target handed to the driver. -/
inductive Trampoline where
  | callback_func
  deriving DecidableEq, Repr

/-- Calls received by the peripheral driver adapter. -/
inductive DriverCall where
  | tmr_setup (unit : Int) (micros : Nat) (callback : Trampoline) (enable : Nat)
  | tmr_start (unit : Int)
  | tmr_stop (unit : Int)
  deriving DecidableEq, Repr

/-- Interpreter operations performed through the Lua C API, in the order made. -/
inductive LuaCall where
  | pvGetLuaState (L : Nat)
  | lua_newthread (L TL : Nat)
  | luaL_ref (L : Nat) (ref : Int)
  | lua_rawgeti (L : Nat) (n : Int)
  | lua_xmove (src dst n : Nat)
  | lua_pcall (L nargs nresults : Nat) (status : Int)
  | luaL_unref (L : Nat) (ref : Int)
  | lua_pushvalue (L idx : Nat)
  | lua_newuserdata (L : Nat)
  | lua_setmetatable (L : Nat)
  | luaL_newmetarotable (L : Nat)
  deriving DecidableEq, Repr

/-- The registry's reference slots: slot `i` (from 0) backs reference `i + 1`,
and a free slot is `none`. -/
abbrev Registry := List (Option Value)

/-- The state the module works on.
* `callbacks`: the static array `callbacks[CPU_LAST_TIMER + 1]`;
* `threads`: the stack of every `lua_State` (bottom first), indexed by its
  pointer; `main` is what `pvGetLuaState()` returns;
* `registry`: the reference slots of the Lua registry;
* `udata`: the userdata blocks allocated so far;
* `driver`, `api`: the calls received by the driver adapter and by the
  interpreter, oldest first. -/
structure World where
  callbacks : List tmr_callback_t
  threads : List (List Value)
  main : Nat
  registry : Registry
  udata : List tmr_userdata
  driver : List DriverCall
  api : List LuaCall
  deriving DecidableEq, Repr

/-- What the collaborators answer: whether `lua_newuserdata` hands out a block,
the error (if any) reported by the driver's `tmr_setup` / `tmr_start` /
`tmr_stop`, and the status with which running script function `f` ends. -/
structure Env where
  newuserdata_ok : Bool
  tmr_setup : Int → Nat → Option Nat
  tmr_start : Int → Option Nat
  tmr_stop : Int → Option Nat
  call : Nat → Int

/-! ## The interpreter registry

The sources of the interpreter (`lauxlib.c`, `lapi.c`) are not at hand.  The
registry follows the spec's "reference-counted slot storage
(`takeRef`/`releaseRef`)". -/

/-- The value in slot `i`, `none` when the slot is free or does not exist. -/
def Registry.slot (r : Registry) (i : Nat) : Option Value := (r[i]?).join

/-- Modelled from the spec: the value stored under a reference (`lua_rawgeti` on
the registry, whose source is not at hand); `nil` for anything that is not a
live slot. -/
def Registry.get (r : Registry) (ref : Int) : Value :=
  if 1 ≤ ref then (r.slot (ref.toNat - 1)).getD Value.nil else Value.nil

/-- Index of the first free slot, or the number of slots when all are taken. -/
def firstFree : Registry → Nat
  | [] => 0
  | none :: _ => 0
  | some _ :: r => firstFree r + 1

/-- Modelled from the spec: `takeRef` (the slot allocation of `luaL_ref`, whose
source is not at hand) stores the value in a slot that is not live and returns
the slot's reference. -/
def Registry.takeRef (r : Registry) (v : Value) : Registry × Int :=
  let i := firstFree r
  (if i < r.length then r.set i (some v) else r ++ [some v], (i : Int) + 1)

/-- Modelled from the spec: `releaseRef` (`luaL_unref`, whose source is not at
hand) frees the slot of a reference; negative references (`LUA_NOREF`,
`LUA_REFNIL`) are ignored. -/
def Registry.releaseRef (r : Registry) (ref : Int) : Registry :=
  if 1 ≤ ref then r.set (ref.toNat - 1) none else r

/-- Whether a reference is live in the registry. -/
def Registry.live (r : Registry) (ref : Int) : Bool :=
  decide (1 ≤ ref) && (r.slot (ref.toNat - 1)).isSome

/-! ## Lua C API primitives used by the module

The interpreter is a collaborator whose sources are not at hand; each primitive
follows the spec's description of the interpreter interface (sections 4.2 and 6)
and records the operation in `World.api`.  Allocation failures inside the
interpreter are not modelled, except for the NULL result of `lua_newuserdata`
that the module tests for. -/

/-- The stack of a `lua_State`. -/
def World.stack (w : World) (L : Nat) : List Value := w.threads.getD L []

/-- Replace the stack of a `lua_State`. -/
def World.setStack (w : World) (L : Nat) (st : List Value) : World :=
  { w with threads := w.threads.set L st }

/-- Record an interpreter operation. -/
def World.log (w : World) (c : LuaCall) : World :=
  { w with api := w.api ++ [c] }

/-- Modelled from the spec: stack indexing of the Lua C API (`lapi.c` is not at
hand): the value at a positive stack index, `none` for an index that is not valid. -/
def lua_index (w : World) (L : Nat) (idx : Nat) : Option Value :=
  if idx = 0 then none else (w.stack L)[idx - 1]?

/-- Modelled from the spec: `lua_gettop` (`lapi.c` is not at hand), the number of
arguments the script passed. -/
def lua_gettop (w : World) (L : Nat) : Nat := (w.stack L).length

/-- Modelled from the spec: `luaL_checkinteger` (`lauxlib.c` is not at hand), the
spec's "argument parsing and type-checking glue": the `lua_Integer` at a stack
index, or `none` where the C function raises an argument error. -/
def luaL_checkinteger (w : World) (L : Nat) (idx : Nat) : Option Int :=
  match lua_index w L idx with
  | some (Value.integer n) => some n
  | _ => none

/-- Modelled from the spec: `luaL_checktype(L, idx, LUA_TFUNCTION)` (`lauxlib.c` is
not at hand): whether the value at a stack index is a function; the C function
raises an argument error when it is not. -/
def isfunction (w : World) (L : Nat) (idx : Nat) : Bool :=
  match lua_index w L idx with
  | some (Value.function _) => true
  | _ => false

/-- Modelled from the spec: `pvGetLuaState` (FreeRTOS additions, not at hand), the
spec's "obtain a reference to the main interpreter state". -/
def pvGetLuaState (w : World) : World × Nat :=
  (w.log (LuaCall.pvGetLuaState w.main), w.main)

/-- Modelled from the spec: `lua_newthread` (`lstate.c` is not at hand), the spec's
"new, independent execution thread ... with its own private call stack": a new
state with an empty stack is created, its thread value is pushed on `L`, and the
new state is returned. -/
def lua_newthread (w : World) (L : Nat) : World × Nat :=
  let TL := w.threads.length
  let w1 : World := { w with threads := w.threads ++ [[]] }
  let w2 := w1.setStack L (w1.stack L ++ [Value.thread TL])
  (w2.log (LuaCall.lua_newthread L TL), TL)

/-- Modelled from the spec: `luaL_ref(L, LUA_REGISTRYINDEX)` (`lauxlib.c` is not at
hand), the spec's `takeRef`: the value on top of `L` is popped and stored in a
registry slot, whose reference is returned; `nil` gets the fixed reference
`LUA_REFNIL` and no slot. -/
def luaL_ref (w : World) (L : Nat) : World × Int :=
  let st := w.stack L
  let v := st.getLast?.getD Value.nil
  let w1 := w.setStack L st.dropLast
  if v = Value.nil then (w1.log (LuaCall.luaL_ref L LUA_REFNIL), LUA_REFNIL)
  else
    let p := w1.registry.takeRef v
    (({ w1 with registry := p.1 } : World).log (LuaCall.luaL_ref L p.2), p.2)

/-- Modelled from the spec: `luaL_unref(L, LUA_REGISTRYINDEX, ref)` (`lauxlib.c` is
not at hand), the spec's `releaseRef`. -/
def luaL_unref (w : World) (L : Nat) (ref : Int) : World :=
  ({ w with registry := w.registry.releaseRef ref } : World).log (LuaCall.luaL_unref L ref)

/-- Modelled from the spec: `lua_rawgeti(L, LUA_REGISTRYINDEX, n)` (`lapi.c` is not
at hand): the registry value stored under `n` is pushed on `L`. -/
def lua_rawgeti (w : World) (L : Nat) (n : Int) : World :=
  (w.setStack L (w.stack L ++ [w.registry.get n])).log (LuaCall.lua_rawgeti L n)

/-- Modelled from the spec: `lua_xmove` (`lapi.c` is not at hand), the spec's
"ability to move a value between threads": the top `n` values of `src` are popped
and pushed on `dst`; nothing moves when both are the same state. -/
def lua_xmove (w : World) (src dst n : Nat) : World :=
  if src = dst then w.log (LuaCall.lua_xmove src dst n)
  else
    let st := w.stack src
    let moved := st.drop (st.length - n)
    let w1 := w.setStack src (st.take (st.length - n))
    let w2 := w1.setStack dst (w1.stack dst ++ moved)
    w2.log (LuaCall.lua_xmove src dst n)

/-- Modelled from the spec: the status of a protected call of a value: a script
function ends as the environment says, and calling anything else is a runtime
error. -/
def callStatus (env : Env) : Value → Int
  | Value.function f => env.call f
  | _ => LUA_ERRRUN

/-- Modelled from the spec: `lua_pcall(L, nargs, 0, 0)` (`ldo.c` is not at hand),
the spec's "protected-call primitive that converts in-callback errors into a
non-propagating status": the function and its arguments are removed from the
stack of `L`; an error is caught and turned into the status, with the error
object left on the stack.  What the script function itself does to the system is
outside the model. -/
def lua_pcall (env : Env) (w : World) (L nargs : Nat) : World × Int :=
  let st := w.stack L
  let base := st.take (st.length - (nargs + 1))
  let f := (st[st.length - (nargs + 1)]?).getD Value.nil
  let status := callStatus env f
  let st1 := if status = LUA_OK then base else base ++ [Value.other 0]
  ((w.setStack L st1).log (LuaCall.lua_pcall L nargs 0 status), status)

/-- Modelled from the spec: `lua_pushvalue` (`lapi.c` is not at hand): a copy of the
value at a stack index is pushed. -/
def lua_pushvalue (w : World) (L idx : Nat) : World :=
  (w.setStack L (w.stack L ++ [(lua_index w L idx).getD Value.nil])).log
    (LuaCall.lua_pushvalue L idx)

/-- Modelled from the spec: `lua_newuserdata` (`lapi.c` is not at hand), the
allocation of the handle object: a fresh block is allocated and its userdata
object pushed; `none` is the NULL pointer the module tests for ("the handle
object cannot be allocated"). -/
def lua_newuserdata (env : Env) (w : World) (L : Nat) : World × Option Nat :=
  if env.newuserdata_ok then
    let p := w.udata.length
    let w1 : World := { w with udata := w.udata ++ [⟨none, none, false⟩] }
    ((w1.setStack L (w1.stack L ++ [Value.userdata p])).log (LuaCall.lua_newuserdata L), some p)
  else (w.log (LuaCall.lua_newuserdata L), none)

/-- Modelled from the spec: `luaL_getmetatable(L, "tmr.timer"); lua_setmetatable(L,
-2)` (`lauxlib.c`, `lapi.c` are not at hand), the spec's "metatable/table
registration plumbing": the userdata on top of the stack gets the `"tmr.timer"`
metatable. -/
def set_tmr_metatable (w : World) (L : Nat) : World :=
  let w1 : World :=
    match (w.stack L).getLast? with
    | some (Value.userdata p) =>
      { w with udata := w.udata.modify (fun b => { b with metatable := true }) p }
    | _ => w
  w1.log (LuaCall.lua_setmetatable L)

/-- Modelled from the spec: `luaL_checkudata(L, idx, "tmr.timer")` (`lauxlib.c` is
not at hand): the block of the timer handle at a stack index; `none` where the C
function raises an argument error (no userdata, or one without the metatable). -/
def luaL_checkudata (w : World) (L idx : Nat) : Option tmr_userdata :=
  match lua_index w L idx with
  | some (Value.userdata p) =>
    match w.udata[p]? with
    | some b => if b.metatable then some b else none
    | none => none
  | _ => none

/-! ## The module -/

/-- The entry of `callbacks` at a C `int` index; `none` outside the array. -/
def World.entry (w : World) (unit : Int) : Option tmr_callback_t :=
  if 0 ≤ unit then w.callbacks[unit.toNat]? else none

/-- Trampoline `callback_func` (tmr.c, lines 60-78). -/
def callback_func (env : Env) (w : World) (arg : Int) : World × Result :=
  let unit := toInt32 arg
  match w.entry unit with
  | none => (w, Result.undefined)
  | some e =>
    if e.callback ≠ LUA_NOREF then
      let (w1, L) := pvGetLuaState w
      let (w2, TL) := lua_newthread w1 L
      let (w3, tref) := luaL_ref w2 L
      let w4 := lua_rawgeti w3 L ((w3.entry unit).getD e).callback
      let w5 := lua_xmove w4 L TL 1
      let (w6, _) := lua_pcall env w5 TL 0
      let w7 := luaL_unref w6 TL tref
      (w7, Result.returned 0)
    else (w, Result.returned 0)

/-- Hardware-backed constructor `ltmr_hw_attach` (tmr.c, lines 134-168). -/
def ltmr_hw_attach (env : Env) (w : World) (L : Nat) : World × Result :=
  match luaL_checkinteger w L 1 with
  | none => (w, Result.arg_error 1)
  | some a1 =>
    let id := toInt32 a1
    match luaL_checkinteger w L 2 with
    | none => (w, Result.arg_error 2)
    | some a2 =>
      let micros := toUInt32 a2
      if micros < 500 then (w, Result.exception TimerErr.TIMER_ERR_INVALID_PERIOD)
      else if ¬ isfunction w L 3 then (w, Result.arg_error 3)
      else
        let w1 := lua_pushvalue w L 3
        let (w2, callback) := luaL_ref w1 L
        match w2.entry id with
        | none => (w2, Result.undefined)
        | some _ =>
          let w3 : World :=
            { w2 with callbacks := w2.callbacks.set id.toNat ⟨callback, some L⟩ }
          match lua_newuserdata env w3 L with
          | (w4, none) => (w4, Result.exception TimerErr.TIMER_ERR_NOT_ENOUGH_MEMORY)
          | (w4, some p) =>
            let w5 : World :=
              { w4 with udata := w4.udata.modify (fun b => { b with type := some tmr_type.TmrHW }) p }
            let w6 : World :=
              { w5 with driver := w5.driver ++ [DriverCall.tmr_setup id micros Trampoline.callback_func 1] }
            match env.tmr_setup id micros with
            | some error => (w6, Result.driver_error error)
            | none =>
              let w7 : World :=
                { w6 with udata := w6.udata.modify (fun b => { b with unit := some id }) p }
              (set_tmr_metatable w7 L, Result.returned 1)

/-- Software-only constructor `ltmr_sw_attach` (tmr.c, lines 170-182). -/
def ltmr_sw_attach (env : Env) (w : World) (L : Nat) : World × Result :=
  match lua_newuserdata env w L with
  | (w1, none) => (w1, Result.exception TimerErr.TIMER_ERR_NOT_ENOUGH_MEMORY)
  | (w1, some p) =>
    let w2 : World :=
      { w1 with udata := w1.udata.modify (fun b => { b with type := some tmr_type.TmrSW }) p }
    (set_tmr_metatable w2 L, Result.returned 1)

/-- Constructor `ltmr_attach` (tmr.c, lines 184-190). -/
def ltmr_attach (env : Env) (w : World) (L : Nat) : World × Result :=
  if lua_gettop w L = 3 then ltmr_hw_attach env w L else ltmr_sw_attach env w L

/-- Handle operation `ltmr_start` (tmr.c, lines 192-206). -/
def ltmr_start (env : Env) (w : World) (L : Nat) : World × Result :=
  match luaL_checkudata w L 1 with
  | none => (w, Result.arg_error 1)
  | some tmr =>
    if tmr.type = some tmr_type.TmrHW then
      match tmr.unit with
      | none => (w, Result.undefined)
      | some unit =>
        let w1 : World := { w with driver := w.driver ++ [DriverCall.tmr_start unit] }
        match env.tmr_start unit with
        | some error => (w1, Result.driver_error error)
        | none => (w1, Result.returned 0)
    else (w, Result.returned 0)

/-- Handle operation `ltmr_stop` (tmr.c, lines 208-222). -/
def ltmr_stop (env : Env) (w : World) (L : Nat) : World × Result :=
  match luaL_checkudata w L 1 with
  | none => (w, Result.arg_error 1)
  | some tmr =>
    if tmr.type = some tmr_type.TmrHW then
      match tmr.unit with
      | none => (w, Result.undefined)
      | some unit =>
        let w1 : World := { w with driver := w.driver ++ [DriverCall.tmr_stop unit] }
        match env.tmr_stop unit with
        | some error => (w1, Result.driver_error error)
        | none => (w1, Result.returned 0)
    else (w, Result.returned 0)

/-- Module initialiser `luaopen_tmr` (tmr.c, lines 247-252): `memset` writes
zero bytes over every entry of `callbacks`. -/
def luaopen_tmr (w : World) (L : Nat) : World × Result :=
  let w1 : World :=
    { w with callbacks := w.callbacks.map (fun _ => (⟨0, none⟩ : tmr_callback_t)) }
  (w1.log (LuaCall.luaL_newmetarotable L), Result.returned 0)

/-! ## States, calls and sample data used in the statements -/

/-- The timer handle on top of the stack of `L`, if there is one. -/
def World.topHandle (w : World) (L : Nat) : Option tmr_userdata :=
  match (w.stack L).getLast? with
  | some (Value.userdata p) => w.udata[p]?
  | _ => none

/-- One script call `tmr.attach(unit, period, cb)` made in state `L`, together
with what the collaborators answer during it. -/
structure AttachCall where
  env : Env
  L : Nat
  unit : Int
  period : Int
  cb : Nat

/-- The frame of a script call: the C function finds its arguments on the stack. -/
def AttachCall.frame (c : AttachCall) : List Value :=
  [Value.integer c.unit, Value.integer c.period, Value.function c.cb]

/-- The state after the script call. -/
def AttachCall.run (w : World) (c : AttachCall) : World :=
  (ltmr_attach c.env (w.setStack c.L c.frame) c.L).1

/-- A valid attachment: made in an existing state, to a unit of the table, with
a period of at least 500 that fits the local `uint32_t micros`. -/
def AttachCall.valid (w : World) (c : AttachCall) : Prop :=
  c.L < w.threads.length ∧ 0 ≤ c.unit ∧ c.unit < w.callbacks.length ∧
    500 ≤ c.period ∧ c.period < 4294967296

instance (w : World) (c : AttachCall) : Decidable (c.valid w) := by
  unfold AttachCall.valid; exact inferInstance

/-- The state after a sequence of script calls of `tmr.attach`. -/
def attachAll (w : World) (cs : List AttachCall) : World := cs.foldl AttachCall.run w

/-- A booted system before the module is opened: four timer units in zeroed
static storage, the main state with an empty stack, and a registry whose first
two slots hold the main thread and the globals table. -/
def bootWorld : World :=
  { callbacks := [⟨0, none⟩, ⟨0, none⟩, ⟨0, none⟩, ⟨0, none⟩]
    threads := [[]]
    main := 0
    registry := [some (Value.thread 0), some (Value.other 1)]
    udata := []
    driver := []
    api := [] }

/-- A system with a callback attached to unit 1: script function 5 is stored
under registry reference 3, the handle (block 0) is on the stack of the main
state and the driver has been set up. -/
def armedWorld : World :=
  { callbacks := [⟨0, none⟩, ⟨3, some 0⟩, ⟨0, none⟩, ⟨0, none⟩]
    threads := [[Value.userdata 0]]
    main := 0
    registry := [some (Value.thread 0), some (Value.other 1), some (Value.function 5)]
    udata := [⟨some tmr_type.TmrHW, some 1, true⟩]
    driver := [DriverCall.tmr_setup 1 50000 Trampoline.callback_func 1]
    api := [] }

/-- The frame of the script call `tmr.attach(1, 50000, f)` on a booted system. -/
def attachFrame : World :=
  bootWorld.setStack 0 [Value.integer 1, Value.integer 50000, Value.function 5]

/-- The frame of a script call `tmr.attach(1, 50000)` with two arguments. -/
def twoArgFrame : World :=
  bootWorld.setStack 0 [Value.integer 1, Value.integer 50000]

/-- The frame of the script call `tmr.attach(0, 499, f)` right after the module
has been opened on a booted system. -/
def shortPeriodFrame : World :=
  (luaopen_tmr bootWorld 0).1.setStack 0 [Value.integer 0, Value.integer 499, Value.function 5]

/-- A software-only handle as the only argument of a call, on a system that also
has a callback attached to unit 1. -/
def swHandleFrame : World :=
  { armedWorld with
    threads := [[Value.userdata 1]]
    udata := [⟨some tmr_type.TmrHW, some 1, true⟩, ⟨some tmr_type.TmrSW, none, true⟩] }

/-- Collaborators that never fail: allocation succeeds, the driver reports no
error and every script function ends without error. -/
def quietEnv : Env :=
  { newuserdata_ok := true
    tmr_setup := fun _ _ => none
    tmr_start := fun _ => none
    tmr_stop := fun _ => none
    call := fun _ => 0 }

/-- Collaborators with a driver whose `tmr_setup` reports error 7 and script
functions that raise a runtime error. -/
def failingEnv : Env :=
  { newuserdata_ok := true
    tmr_setup := fun _ _ => some 7
    tmr_start := fun _ => none
    tmr_stop := fun _ => none
    call := fun _ => 2 }

/-- An operation of the module on the running system: a script call of
`tmr.attach`, of `start` or of `stop` with its arguments, made in state `L`, or
a fire of the trampoline by the driver; `env` is what the collaborators answer
during it. -/
inductive Op where
  | attach (env : Env) (L : Nat) (args : List Value)
  | start (env : Env) (L : Nat) (args : List Value)
  | stop (env : Env) (L : Nat) (args : List Value)
  | fire (env : Env) (arg : Int)

/-- The state after an operation; a script call finds its arguments on the stack. -/
def Op.run (w : World) : Op → World
  | Op.attach env L args => (ltmr_attach env (w.setStack L args) L).1
  | Op.start env L args => (ltmr_start env (w.setStack L args) L).1
  | Op.stop env L args => (ltmr_stop env (w.setStack L args) L).1
  | Op.fire env arg => (callback_func env w arg).1

/-- Two valid attachments to unit 1 (the second replaces the first, and its
arming fails) and one to unit 2, made in the main state. -/
def firstAttach : AttachCall := ⟨quietEnv, 0, 1, 50000, 5⟩

/-- The second attachment to unit 1. -/
def secondAttach : AttachCall := ⟨failingEnv, 0, 1, 1000, 6⟩

/-- An attachment to unit 2. -/
def otherAttach : AttachCall := ⟨quietEnv, 0, 2, 500, 7⟩

theorem firstFree_le (r : Registry) : firstFree r ≤ r.length := by
  induction r with
  | nil => simp [firstFree]
  | cons a r ih => cases a <;> simp [firstFree, ih]

theorem slot_firstFree (r : Registry) : r.slot (firstFree r) = none := by
  induction r with
  | nil => simp [firstFree, Registry.slot]
  | cons a r ih =>
    cases a
    · simp [firstFree, Registry.slot]
    · simpa [firstFree, Registry.slot] using ih

theorem slot_takeRef (r : Registry) (v : Value) (i : Nat) :
    (r.takeRef v).1.slot i = if i = firstFree r then some v else r.slot i := by
  unfold Registry.takeRef Registry.slot
  by_cases h : firstFree r < r.length
  · simp only [h, if_true]
    by_cases hi : i = firstFree r
    · subst hi; simp [List.getElem?_set, h]
    · simp [List.getElem?_set, hi, Ne.symm hi]
  · have hl : firstFree r = r.length := le_antisymm (firstFree_le r) (not_lt.mp h)
    simp only [h, if_false]
    by_cases hi : i = firstFree r
    · subst hi; simp [hl]
    · simp only [hi, if_false]
      by_cases h2 : i < r.length
      · simp [List.getElem?_append_left h2]
      · have h3 : r.length ≤ i := not_lt.mp h2
        rw [List.getElem?_append_right h3, List.getElem?_eq_none_iff.mpr h3]
        have : i - r.length ≠ 0 := by omega
        cases hk : i - r.length with
        | zero => exact absurd hk this
        | succ k => simp

theorem slot_set_none (r : Registry) (j i : Nat) :
    Registry.slot (r.set j none) i = if i = j then none else r.slot i := by
  unfold Registry.slot
  by_cases hi : i = j
  · subst hi
    by_cases h : i < r.length
    · simp [List.getElem?_set, h]
    · simp [List.getElem?_set, h]
  · simp [List.getElem?_set, hi, Ne.symm hi]

/-- Taking a reference and releasing it again leaves every slot as it was. -/
theorem slot_release_takeRef (r : Registry) (v : Value) (i : Nat) :
    ((r.takeRef v).1.releaseRef (r.takeRef v).2).slot i = r.slot i := by
  have h2 : (r.takeRef v).2 = (firstFree r : Int) + 1 := rfl
  have h1 : (1 : Int) ≤ (r.takeRef v).2 := by rw [h2]; omega
  unfold Registry.releaseRef
  rw [if_pos h1, slot_set_none, h2]
  have : ((firstFree r : Int) + 1).toNat - 1 = firstFree r := by omega
  rw [this]
  by_cases hi : i = firstFree r
  · subst hi; simp [slot_firstFree]
  · simp [hi, slot_takeRef]

theorem get_release_takeRef (r : Registry) (v : Value) (ref : Int) :
    ((r.takeRef v).1.releaseRef (r.takeRef v).2).get ref = r.get ref := by
  unfold Registry.get; rw [slot_release_takeRef]

theorem live_release_takeRef (r : Registry) (v : Value) (ref : Int) :
    ((r.takeRef v).1.releaseRef (r.takeRef v).2).live ref = r.live ref := by
  unfold Registry.live; rw [slot_release_takeRef]

/-- The new reference is not live before, is live afterwards and yields the value. -/
theorem takeRef_fresh (r : Registry) (v : Value) :
    r.live (r.takeRef v).2 = false ∧ (r.takeRef v).1.live (r.takeRef v).2 = true
      ∧ (r.takeRef v).1.get (r.takeRef v).2 = v := by
  have h2 : (r.takeRef v).2 = (firstFree r : Int) + 1 := rfl
  have h3 : ((firstFree r : Int) + 1).toNat - 1 = firstFree r := by omega
  have h1 : (1 : Int) ≤ (firstFree r : Int) + 1 := by omega
  simp [Registry.live, Registry.get, h2, h3, h1, slot_takeRef, slot_firstFree]

/-- References that are live keep their value when another reference is taken. -/
theorem takeRef_keeps (r : Registry) (v : Value) (ref : Int) (h : r.live ref = true) :
    (r.takeRef v).1.live ref = true ∧ (r.takeRef v).1.get ref = r.get ref := by
  simp only [Registry.live, Bool.and_eq_true, decide_eq_true_eq] at h
  have hne : ref.toNat - 1 ≠ firstFree r := by
    intro he; rw [he, slot_firstFree] at h; simp at h
  simp [Registry.live, Registry.get, slot_takeRef, hne, h.1, h.2]

/-! ## Projections of the primitives -/

@[simp] theorem log_callbacks (w : World) (c : LuaCall) : (w.log c).callbacks = w.callbacks := rfl
@[simp] theorem log_threads (w : World) (c : LuaCall) : (w.log c).threads = w.threads := rfl
@[simp] theorem log_main (w : World) (c : LuaCall) : (w.log c).main = w.main := rfl
@[simp] theorem log_registry (w : World) (c : LuaCall) : (w.log c).registry = w.registry := rfl
@[simp] theorem log_udata (w : World) (c : LuaCall) : (w.log c).udata = w.udata := rfl
@[simp] theorem log_driver (w : World) (c : LuaCall) : (w.log c).driver = w.driver := rfl
@[simp] theorem log_api (w : World) (c : LuaCall) : (w.log c).api = w.api ++ [c] := rfl
@[simp] theorem log_stack (w : World) (c : LuaCall) (L : Nat) : (w.log c).stack L = w.stack L := rfl
@[simp] theorem log_entry (w : World) (c : LuaCall) (u : Int) : (w.log c).entry u = w.entry u := rfl

@[simp] theorem setStack_callbacks (w : World) (L : Nat) (s : List Value) :
    (w.setStack L s).callbacks = w.callbacks := rfl
@[simp] theorem setStack_main (w : World) (L : Nat) (s : List Value) :
    (w.setStack L s).main = w.main := rfl
@[simp] theorem setStack_registry (w : World) (L : Nat) (s : List Value) :
    (w.setStack L s).registry = w.registry := rfl
@[simp] theorem setStack_udata (w : World) (L : Nat) (s : List Value) :
    (w.setStack L s).udata = w.udata := rfl
@[simp] theorem setStack_driver (w : World) (L : Nat) (s : List Value) :
    (w.setStack L s).driver = w.driver := rfl
@[simp] theorem setStack_api (w : World) (L : Nat) (s : List Value) :
    (w.setStack L s).api = w.api := rfl
@[simp] theorem setStack_entry (w : World) (L : Nat) (s : List Value) (u : Int) :
    (w.setStack L s).entry u = w.entry u := rfl
@[simp] theorem setStack_threads_length (w : World) (L : Nat) (s : List Value) :
    (w.setStack L s).threads.length = w.threads.length := by simp [World.setStack]

theorem setStack_stack (w : World) (L K : Nat) (s : List Value) :
    (w.setStack L s).stack K = if L = K ∧ L < w.threads.length then s else w.stack K := by
  unfold World.setStack World.stack
  simp only [List.getD_eq_getElem?_getD, List.getElem?_set]
  by_cases h : L = K
  · subst h
    by_cases h2 : L < w.threads.length
    · simp [h2]
    · simp [h2, List.getElem?_eq_none_iff.mpr (not_lt.mp h2)]
  · simp [h]

@[simp] theorem pvGetLuaState_fst (w : World) : (pvGetLuaState w).1 = w.log (LuaCall.pvGetLuaState w.main) := rfl
@[simp] theorem pvGetLuaState_snd (w : World) : (pvGetLuaState w).2 = w.main := rfl

@[simp] theorem lua_newthread_snd (w : World) (L : Nat) : (lua_newthread w L).2 = w.threads.length := rfl
@[simp] theorem lua_newthread_callbacks (w : World) (L : Nat) : (lua_newthread w L).1.callbacks = w.callbacks := rfl
@[simp] theorem lua_newthread_registry (w : World) (L : Nat) : (lua_newthread w L).1.registry = w.registry := rfl
@[simp] theorem lua_newthread_api (w : World) (L : Nat) :
    (lua_newthread w L).1.api = w.api ++ [LuaCall.lua_newthread L w.threads.length] := rfl
@[simp] theorem lua_newthread_entry (w : World) (L : Nat) (u : Int) : (lua_newthread w L).1.entry u = w.entry u := rfl
@[simp] theorem lua_newthread_udata (w : World) (L : Nat) : (lua_newthread w L).1.udata = w.udata := rfl
@[simp] theorem lua_newthread_driver (w : World) (L : Nat) : (lua_newthread w L).1.driver = w.driver := rfl
@[simp] theorem lua_newthread_main (w : World) (L : Nat) : (lua_newthread w L).1.main = w.main := rfl


@[simp] theorem luaL_ref_callbacks (w : World) (L : Nat) : (luaL_ref w L).1.callbacks = w.callbacks := by
  unfold luaL_ref; simp only []; split <;> rfl
@[simp] theorem luaL_ref_main (w : World) (L : Nat) : (luaL_ref w L).1.main = w.main := by
  unfold luaL_ref; simp only []; split <;> rfl
@[simp] theorem luaL_ref_udata (w : World) (L : Nat) : (luaL_ref w L).1.udata = w.udata := by
  unfold luaL_ref; simp only []; split <;> rfl
@[simp] theorem luaL_ref_driver (w : World) (L : Nat) : (luaL_ref w L).1.driver = w.driver := by
  unfold luaL_ref; simp only []; split <;> rfl
@[simp] theorem luaL_ref_entry (w : World) (L : Nat) (u : Int) : (luaL_ref w L).1.entry u = w.entry u := by
  unfold World.entry; simp
@[simp] theorem luaL_ref_api (w : World) (L : Nat) :
    (luaL_ref w L).1.api = w.api ++ [LuaCall.luaL_ref L (luaL_ref w L).2] := by
  unfold luaL_ref; simp only []; split <;> rfl
@[simp] theorem luaL_ref_threads_length (w : World) (L : Nat) :
    (luaL_ref w L).1.threads.length = w.threads.length := by
  unfold luaL_ref; simp only []; split <;> simp

@[simp] theorem lua_rawgeti_api (w : World) (L : Nat) (n : Int) :
    (lua_rawgeti w L n).api = w.api ++ [LuaCall.lua_rawgeti L n] := rfl
@[simp] theorem lua_rawgeti_callbacks (w : World) (L : Nat) (n : Int) :
    (lua_rawgeti w L n).callbacks = w.callbacks := rfl
@[simp] theorem lua_rawgeti_registry (w : World) (L : Nat) (n : Int) :
    (lua_rawgeti w L n).registry = w.registry := rfl
@[simp] theorem lua_rawgeti_main (w : World) (L : Nat) (n : Int) :
    (lua_rawgeti w L n).main = w.main := rfl
@[simp] theorem lua_rawgeti_udata (w : World) (L : Nat) (n : Int) :
    (lua_rawgeti w L n).udata = w.udata := rfl
@[simp] theorem lua_rawgeti_driver (w : World) (L : Nat) (n : Int) :
    (lua_rawgeti w L n).driver = w.driver := rfl

@[simp] theorem lua_xmove_api (w : World) (a b n : Nat) :
    (lua_xmove w a b n).api = w.api ++ [LuaCall.lua_xmove a b n] := by
  unfold lua_xmove; split <;> rfl
@[simp] theorem lua_xmove_callbacks (w : World) (a b n : Nat) :
    (lua_xmove w a b n).callbacks = w.callbacks := by
  unfold lua_xmove; split <;> rfl
@[simp] theorem lua_xmove_registry (w : World) (a b n : Nat) :
    (lua_xmove w a b n).registry = w.registry := by
  unfold lua_xmove; split <;> rfl
@[simp] theorem lua_xmove_main (w : World) (a b n : Nat) :
    (lua_xmove w a b n).main = w.main := by
  unfold lua_xmove; split <;> rfl
@[simp] theorem lua_xmove_udata (w : World) (a b n : Nat) :
    (lua_xmove w a b n).udata = w.udata := by
  unfold lua_xmove; split <;> rfl
@[simp] theorem lua_xmove_driver (w : World) (a b n : Nat) :
    (lua_xmove w a b n).driver = w.driver := by
  unfold lua_xmove; split <;> rfl

@[simp] theorem lua_pcall_api (env : Env) (w : World) (L n : Nat) :
    (lua_pcall env w L n).1.api = w.api ++ [LuaCall.lua_pcall L n 0 (lua_pcall env w L n).2] := rfl
@[simp] theorem lua_pcall_callbacks (env : Env) (w : World) (L n : Nat) :
    (lua_pcall env w L n).1.callbacks = w.callbacks := rfl
@[simp] theorem lua_pcall_registry (env : Env) (w : World) (L n : Nat) :
    (lua_pcall env w L n).1.registry = w.registry := rfl
@[simp] theorem lua_pcall_main (env : Env) (w : World) (L n : Nat) :
    (lua_pcall env w L n).1.main = w.main := rfl
@[simp] theorem lua_pcall_udata (env : Env) (w : World) (L n : Nat) :
    (lua_pcall env w L n).1.udata = w.udata := rfl
@[simp] theorem lua_pcall_driver (env : Env) (w : World) (L n : Nat) :
    (lua_pcall env w L n).1.driver = w.driver := rfl

@[simp] theorem luaL_unref_api (w : World) (L : Nat) (r : Int) :
    (luaL_unref w L r).api = w.api ++ [LuaCall.luaL_unref L r] := rfl
@[simp] theorem luaL_unref_callbacks (w : World) (L : Nat) (r : Int) :
    (luaL_unref w L r).callbacks = w.callbacks := rfl
@[simp] theorem luaL_unref_registry (w : World) (L : Nat) (r : Int) :
    (luaL_unref w L r).registry = w.registry.releaseRef r := rfl
@[simp] theorem luaL_unref_main (w : World) (L : Nat) (r : Int) :
    (luaL_unref w L r).main = w.main := rfl
@[simp] theorem luaL_unref_threads (w : World) (L : Nat) (r : Int) :
    (luaL_unref w L r).threads = w.threads := rfl
@[simp] theorem luaL_unref_udata (w : World) (L : Nat) (r : Int) :
    (luaL_unref w L r).udata = w.udata := rfl
@[simp] theorem luaL_unref_driver (w : World) (L : Nat) (r : Int) :
    (luaL_unref w L r).driver = w.driver := rfl

/-- The steps of a fire of the trampoline, as the states it goes through. -/
theorem callback_func_some (env : Env) (w : World) (arg : Int) (e : tmr_callback_t)
    (he : w.entry (toInt32 arg) = some e) (hne : e.callback ≠ LUA_NOREF) :
    callback_func env w arg =
      (luaL_unref
        (lua_pcall env
          (lua_xmove
            (lua_rawgeti (luaL_ref (lua_newthread (pvGetLuaState w).1 w.main).1 w.main).1 w.main e.callback)
            w.main w.threads.length 1)
          w.threads.length 0).1
        w.threads.length
        (luaL_ref (lua_newthread (pvGetLuaState w).1 w.main).1 w.main).2,
       Result.returned 0) := by
  unfold callback_func
  simp [he, hne]

theorem callback_func_none (env : Env) (w : World) (arg : Int) (e : tmr_callback_t)
    (he : w.entry (toInt32 arg) = some e) (hne : e.callback = LUA_NOREF) :
    callback_func env w arg = (w, Result.returned 0) := by
  unfold callback_func
  simp [he, hne]


theorem stack_eq_nil_of_le (w : World) (K : Nat) (h : w.threads.length ≤ K) : w.stack K = [] := by
  simp [World.stack, List.getD_eq_getElem?_getD, List.getElem?_eq_none_iff.mpr h]

theorem lua_newthread_threads_length (w : World) (L : Nat) :
    (lua_newthread w L).1.threads.length = w.threads.length + 1 := by
  simp [lua_newthread, World.setStack, World.log]

theorem lua_newthread_stack (w : World) (L K : Nat) (h : L < w.threads.length) :
    (lua_newthread w L).1.stack K =
      if K = L then w.stack L ++ [Value.thread w.threads.length]
      else if K = w.threads.length then [] else w.stack K := by
  have hL : ({ w with threads := w.threads ++ [[]] } : World).stack L = w.stack L := by
    simp [World.stack, List.getD_eq_getElem?_getD, List.getElem?_append_left h]
  unfold lua_newthread
  simp only [log_stack, setStack_stack, hL]
  by_cases hK : K = L
  · subst hK; simp; omega
  · have hK2 : ¬ L = K := fun h => hK h.symm
    simp only [hK, hK2, false_and, if_false]
    by_cases hn : K = w.threads.length
    · subst hn; simp [World.stack, List.getD_eq_getElem?_getD]
    · simp only [hn, if_false, World.stack, List.getD_eq_getElem?_getD]
      by_cases hlt : K < w.threads.length
      · rw [List.getElem?_append_left hlt]
      · have h1 : w.threads.length ≤ K := not_lt.mp hlt
        rw [List.getElem?_eq_none_iff.mpr h1, List.getElem?_eq_none_iff.mpr]
        simp; omega

theorem luaL_ref_top (w : World) (L : Nat) (st : List Value) (v : Value)
    (hst : w.stack L = st ++ [v]) (hv : v ≠ Value.nil) :
    (luaL_ref w L).2 = (w.registry.takeRef v).2 ∧
    (luaL_ref w L).1.registry = (w.registry.takeRef v).1 ∧
    ∀ K, (luaL_ref w L).1.stack K = if K = L then st else w.stack K := by
  have hL : L < w.threads.length := by
    by_contra hc
    rw [stack_eq_nil_of_le w L (not_lt.mp hc)] at hst
    simp at hst
  have htop : (st ++ [v]).getLast?.getD Value.nil = v := by simp
  unfold luaL_ref
  simp only [hst, htop, hv, if_false, List.dropLast_concat]
  refine ⟨rfl, rfl, fun K => ?_⟩
  simp only [log_stack]
  show (w.setStack L st).stack K = _
  rw [setStack_stack]
  by_cases hK : K = L
  · subst hK; simp [hL]
  · have hK2 : ¬ L = K := fun h => hK h.symm
    simp [hK, hK2]

theorem lua_rawgeti_stack (w : World) (L K : Nat) (n : Int) (hL : L < w.threads.length) :
    (lua_rawgeti w L n).stack K = if K = L then w.stack L ++ [w.registry.get n] else w.stack K := by
  unfold lua_rawgeti
  simp only [log_stack, setStack_stack]
  by_cases hK : K = L
  · subst hK; simp [hL]
  · have hK2 : ¬ L = K := fun h => hK h.symm
    simp [hK, hK2]

theorem lua_rawgeti_threads_length (w : World) (L : Nat) (n : Int) :
    (lua_rawgeti w L n).threads.length = w.threads.length := by
  simp [lua_rawgeti, World.log]

theorem lua_xmove_one_stack (w : World) (a b K : Nat) (st : List Value) (v : Value)
    (hab : a ≠ b) (ha : a < w.threads.length) (hb : b < w.threads.length)
    (hst : w.stack a = st ++ [v]) :
    (lua_xmove w a b 1).stack K =
      if K = a then st else if K = b then w.stack b ++ [v] else w.stack K := by
  unfold lua_xmove
  simp only [hab, if_false, log_stack, setStack_stack, hst, setStack_threads_length,
    List.length_append, List.length_singleton, Nat.add_sub_cancel, List.take_left',
    List.drop_left']
  by_cases hKa : K = a
  · subst hKa; simp [ha, hab, Ne.symm hab]
  · by_cases hKb : K = b
    · subst hKb; simp [hb, hab, Ne.symm hab, ha]
    · have h1 : ¬ a = K := fun h => hKa h.symm
      have h2 : ¬ b = K := fun h => hKb h.symm
      simp [hKa, hKb, h1, h2]

theorem lua_xmove_threads_length (w : World) (a b n : Nat) :
    (lua_xmove w a b n).threads.length = w.threads.length := by
  unfold lua_xmove; split <;> simp

theorem lua_pcall_zero (env : Env) (w : World) (L K : Nat) (v : Value)
    (hL : L < w.threads.length) (hst : w.stack L = [v]) :
    (lua_pcall env w L 0).2 = callStatus env v ∧
    (lua_pcall env w L 0).1.stack K =
      if K = L then (if callStatus env v = LUA_OK then [] else [Value.other 0]) else w.stack K := by
  unfold lua_pcall
  simp only [hst, log_stack, setStack_stack]
  refine ⟨by simp, ?_⟩
  by_cases hK : K = L
  · subst hK; simp [hL]
  · have hK2 : ¬ L = K := fun h => hK h.symm
    simp [hK, hK2]

theorem lua_pcall_threads_length (env : Env) (w : World) (L n : Nat) :
    (lua_pcall env w L n).1.threads.length = w.threads.length := by
  simp [lua_pcall, World.log]


/-! ## The constructor `ltmr_hw_attach` -/

theorem toInt32_of_range (x : Int) (h0 : -2147483648 ≤ x) (h1 : x < 2147483648) : toInt32 x = x := by
  unfold toInt32; omega

theorem toUInt32_of_range (x : Int) (h0 : 0 ≤ x) (h1 : x < 4294967296) : toUInt32 x = x.toNat := by
  unfold toUInt32; congr 1; omega

@[simp] theorem lua_pushvalue_callbacks (w : World) (L i : Nat) :
    (lua_pushvalue w L i).callbacks = w.callbacks := rfl
@[simp] theorem lua_pushvalue_registry (w : World) (L i : Nat) :
    (lua_pushvalue w L i).registry = w.registry := rfl
@[simp] theorem lua_pushvalue_udata (w : World) (L i : Nat) :
    (lua_pushvalue w L i).udata = w.udata := rfl
@[simp] theorem lua_pushvalue_driver (w : World) (L i : Nat) :
    (lua_pushvalue w L i).driver = w.driver := rfl
@[simp] theorem lua_pushvalue_main (w : World) (L i : Nat) :
    (lua_pushvalue w L i).main = w.main := rfl
@[simp] theorem lua_pushvalue_entry (w : World) (L i : Nat) (u : Int) :
    (lua_pushvalue w L i).entry u = w.entry u := rfl
@[simp] theorem lua_pushvalue_threads_length (w : World) (L i : Nat) :
    (lua_pushvalue w L i).threads.length = w.threads.length := by
  simp [lua_pushvalue, World.log]

theorem lt_of_stack_ne_nil (w : World) (L : Nat) (h : w.stack L ≠ []) : L < w.threads.length := by
  by_contra hc
  exact h (stack_eq_nil_of_le w L (not_lt.mp hc))

theorem lua_pushvalue_stack (w : World) (L i K : Nat) (hL : L < w.threads.length) :
    (lua_pushvalue w L i).stack K =
      if K = L then w.stack L ++ [(lua_index w L i).getD Value.nil] else w.stack K := by
  unfold lua_pushvalue
  simp only [log_stack, setStack_stack]
  by_cases hK : K = L
  · subst hK; simp [hL]
  · have hK2 : ¬ L = K := fun h => hK h.symm
    simp [hK, hK2]

@[simp] theorem lua_newuserdata_callbacks (env : Env) (w : World) (L : Nat) :
    (lua_newuserdata env w L).1.callbacks = w.callbacks := by
  unfold lua_newuserdata; split <;> rfl
@[simp] theorem lua_newuserdata_registry (env : Env) (w : World) (L : Nat) :
    (lua_newuserdata env w L).1.registry = w.registry := by
  unfold lua_newuserdata; split <;> rfl
@[simp] theorem lua_newuserdata_driver (env : Env) (w : World) (L : Nat) :
    (lua_newuserdata env w L).1.driver = w.driver := by
  unfold lua_newuserdata; split <;> rfl
@[simp] theorem lua_newuserdata_main (env : Env) (w : World) (L : Nat) :
    (lua_newuserdata env w L).1.main = w.main := by
  unfold lua_newuserdata; split <;> rfl
@[simp] theorem lua_newuserdata_threads_length (env : Env) (w : World) (L : Nat) :
    (lua_newuserdata env w L).1.threads.length = w.threads.length := by
  unfold lua_newuserdata; split <;> simp [World.log, World.setStack]

@[simp] theorem set_tmr_metatable_callbacks (w : World) (L : Nat) :
    (set_tmr_metatable w L).callbacks = w.callbacks := by
  unfold set_tmr_metatable; simp only []; split <;> rfl
@[simp] theorem set_tmr_metatable_registry (w : World) (L : Nat) :
    (set_tmr_metatable w L).registry = w.registry := by
  unfold set_tmr_metatable; simp only []; split <;> rfl
@[simp] theorem set_tmr_metatable_driver (w : World) (L : Nat) :
    (set_tmr_metatable w L).driver = w.driver := by
  unfold set_tmr_metatable; simp only []; split <;> rfl
@[simp] theorem set_tmr_metatable_main (w : World) (L : Nat) :
    (set_tmr_metatable w L).main = w.main := by
  unfold set_tmr_metatable; simp only []; split <;> rfl
@[simp] theorem set_tmr_metatable_threads (w : World) (L : Nat) :
    (set_tmr_metatable w L).threads = w.threads := by
  unfold set_tmr_metatable; simp only []; split <;> rfl

theorem modify_append_last {α : Type} (l : List α) (x : α) (f : α → α) :
    (l ++ [x]).modify f l.length = l ++ [f x] := by
  induction l with
  | nil => rfl
  | cons a l ih =>
    have : List.modify f (l.length + 1) (a :: (l ++ [x])) = a :: List.modify f l.length (l ++ [x]) := rfl
    simp only [List.cons_append, List.length_cons, this, ih]

theorem lua_newuserdata_ok (env : Env) (w : World) (L : Nat) (hok : env.newuserdata_ok = true)
    (hL : L < w.threads.length) :
    (lua_newuserdata env w L).2 = some w.udata.length ∧
    (lua_newuserdata env w L).1.udata = w.udata ++ [⟨none, none, false⟩] ∧
    (lua_newuserdata env w L).1.api = w.api ++ [LuaCall.lua_newuserdata L] ∧
    ∀ K, (lua_newuserdata env w L).1.stack K =
      if K = L then w.stack L ++ [Value.userdata w.udata.length] else w.stack K := by
  unfold lua_newuserdata
  simp only [hok, if_true]
  refine ⟨trivial, rfl, rfl, fun K => ?_⟩
  simp only [log_stack, setStack_stack]
  by_cases hK : K = L
  · subst hK; simp [hL]; rfl
  · have hK2 : ¬ L = K := fun h => hK h.symm
    simp [hK, hK2]; rfl

theorem lt_of_lua_index (w : World) (L i : Nat) (v : Value) (h : lua_index w L i = some v) :
    L < w.threads.length := by
  apply lt_of_stack_ne_nil
  intro hc
  simp [lua_index, hc] at h

/-- The registration step of `ltmr_hw_attach` (lines 144-146): the callback is
copied to the top of the stack and moved into the registry. -/
theorem registration_step (w : World) (L : Nat) (cb : Nat)
    (h3 : lua_index w L 3 = some (Value.function cb)) :
    (luaL_ref (lua_pushvalue w L 3) L).2 = (w.registry.takeRef (Value.function cb)).2 ∧
    (luaL_ref (lua_pushvalue w L 3) L).1.registry = (w.registry.takeRef (Value.function cb)).1 ∧
    (luaL_ref (lua_pushvalue w L 3) L).1.api =
      w.api ++ [LuaCall.lua_pushvalue L 3,
        LuaCall.luaL_ref L (w.registry.takeRef (Value.function cb)).2] ∧
    (∀ K, (luaL_ref (lua_pushvalue w L 3) L).1.stack K = w.stack K) := by
  have hL : L < w.threads.length := lt_of_lua_index w L 3 _ h3
  have htop : (lua_pushvalue w L 3).stack L = w.stack L ++ [Value.function cb] := by
    rw [lua_pushvalue_stack w L 3 L hL, h3]; simp
  obtain ⟨q1, q2, q3⟩ := luaL_ref_top (lua_pushvalue w L 3) L _ _ htop (by simp)
  refine ⟨by simpa using q1, by simpa using q2, ?_, fun K => ?_⟩
  · rw [luaL_ref_api, q1]; simp [lua_pushvalue, World.log]
  · rw [q3, lua_pushvalue_stack w L 3 K hL]
    by_cases hK : K = L
    · subst hK; simp
    · simp [hK]

/-- What `ltmr_hw_attach` does once its argument checks have passed and the unit
indexes the table: the effect on the table, the registry, the driver and the
result, for every answer of the collaborators. -/
theorem hw_attach_registered (env : Env) (w : World) (L : Nat) (a1 a2 : Int) (cb : Nat)
    (e0 : tmr_callback_t)
    (h1 : luaL_checkinteger w L 1 = some a1) (h2 : luaL_checkinteger w L 2 = some a2)
    (h3 : lua_index w L 3 = some (Value.function cb))
    (hmic : 500 ≤ toUInt32 a2) (he : w.entry (toInt32 a1) = some e0) :
    (ltmr_hw_attach env w L).1.callbacks =
        w.callbacks.set (toInt32 a1).toNat ⟨(w.registry.takeRef (Value.function cb)).2, some L⟩ ∧
    (ltmr_hw_attach env w L).1.registry = (w.registry.takeRef (Value.function cb)).1 ∧
    (ltmr_hw_attach env w L).1.threads.length = w.threads.length ∧
    (ltmr_hw_attach env w L).1.main = w.main ∧
    (env.newuserdata_ok = false →
      (ltmr_hw_attach env w L).2 = Result.exception TimerErr.TIMER_ERR_NOT_ENOUGH_MEMORY ∧
      (ltmr_hw_attach env w L).1.driver = w.driver) ∧
    (env.newuserdata_ok = true →
      (ltmr_hw_attach env w L).1.driver =
        w.driver ++ [DriverCall.tmr_setup (toInt32 a1) (toUInt32 a2) Trampoline.callback_func 1] ∧
      (∀ error, env.tmr_setup (toInt32 a1) (toUInt32 a2) = some error →
        (ltmr_hw_attach env w L).2 = Result.driver_error error) ∧
      (env.tmr_setup (toInt32 a1) (toUInt32 a2) = none →
        (ltmr_hw_attach env w L).2 = Result.returned 1 ∧
        (ltmr_hw_attach env w L).1.topHandle L =
          some ⟨some tmr_type.TmrHW, some (toInt32 a1), true⟩)) := by
  have hL : L < w.threads.length := lt_of_lua_index w L 3 _ h3
  have hf : isfunction w L 3 = true := by simp [isfunction, h3]
  have hmic' : ¬ toUInt32 a2 < 500 := by omega
  obtain ⟨q1, q2, _, q3⟩ := registration_step w L cb h3
  have he' : (luaL_ref (lua_pushvalue w L 3) L).1.entry (toInt32 a1) = some e0 := by simpa using he
  unfold ltmr_hw_attach
  simp only [h1, h2, hmic', hf, he', if_false, not_true_eq_false]
  refine ⟨?_, ?_, ?_, ?_, ?_, ?_⟩
  · cases hok : env.newuserdata_ok
    · simp [lua_newuserdata, hok, q1]
    · cases hs : env.tmr_setup (toInt32 a1) (toUInt32 a2) <;> simp [lua_newuserdata, hok, hs, q1]
  · cases hok : env.newuserdata_ok
    · simp [lua_newuserdata, hok, q2]
    · cases hs : env.tmr_setup (toInt32 a1) (toUInt32 a2) <;> simp [lua_newuserdata, hok, hs, q2]
  · cases hok : env.newuserdata_ok
    · simp [lua_newuserdata, hok]
    · cases hs : env.tmr_setup (toInt32 a1) (toUInt32 a2) <;> simp [lua_newuserdata, hok, hs]
  · cases hok : env.newuserdata_ok
    · simp [lua_newuserdata, hok]
    · cases hs : env.tmr_setup (toInt32 a1) (toUInt32 a2) <;> simp [lua_newuserdata, hok, hs]
  · intro hok
    simp [lua_newuserdata, hok]
  · intro hok
    generalize hw3 : ({ (luaL_ref (lua_pushvalue w L 3) L).1 with
      callbacks := (luaL_ref (lua_pushvalue w L 3) L).1.callbacks.set (toInt32 a1).toNat
        ⟨(luaL_ref (lua_pushvalue w L 3) L).2, some L⟩ } : World) = w3
    have hL3 : L < w3.threads.length := by rw [← hw3]; simpa using hL
    have hd3 : w3.driver = w.driver := by rw [← hw3]; simp
    obtain ⟨n1, n2, n3, n4⟩ := lua_newuserdata_ok env w3 L hok hL3
    generalize hp4 : lua_newuserdata env w3 L = p4 at n1 n2 n3 n4
    obtain ⟨w4, r4⟩ := p4
    simp only at n1 n2 n3 n4
    subst n1
    have hd4 : w4.driver = w.driver := by
      have := lua_newuserdata_driver env w3 L
      rw [hp4] at this; simpa [hd3] using this
    simp only []
    refine ⟨?_, ?_, ?_⟩
    · cases hs : env.tmr_setup (toInt32 a1) (toUInt32 a2) <;> simp [hd4]
    · intro error hs
      simp [hs]
    · intro hs
      simp only [hs, true_and]
      unfold World.topHandle set_tmr_metatable
      have htop : (w4.stack L).getLast? = some (Value.userdata w3.udata.length) := by
        rw [n4]; simp
      simp [World.stack] at htop
      simp [World.stack, htop, n2, modify_append_last]

/-! ## The trampoline `callback_func` -/

/-- The steps of a fire of a unit whose entry holds `c`, from a state whose main
interpreter state exists: the main stack after each step, and every component
of the state reached. -/
theorem fire_steps (env : Env) (w : World) (c : Int) (hm : w.main < w.threads.length) :
    (lua_newthread (pvGetLuaState w).1 w.main).1.stack w.main =
        w.stack w.main ++ [Value.thread w.threads.length] ∧
    (luaL_ref (lua_newthread (pvGetLuaState w).1 w.main).1 w.main).1.stack w.main =
        w.stack w.main ∧
    (luaL_ref (lua_newthread (pvGetLuaState w).1 w.main).1 w.main).2 =
        (w.registry.takeRef (Value.thread w.threads.length)).2 ∧
    (lua_rawgeti (luaL_ref (lua_newthread (pvGetLuaState w).1 w.main).1 w.main).1 w.main c).stack
        w.main = w.stack w.main ++
          [(w.registry.takeRef (Value.thread w.threads.length)).1.get c] ∧
    (lua_xmove (lua_rawgeti (luaL_ref (lua_newthread (pvGetLuaState w).1 w.main).1 w.main).1
        w.main c) w.main w.threads.length 1).stack w.main = w.stack w.main ∧
    (lua_pcall env (lua_xmove (lua_rawgeti (luaL_ref (lua_newthread (pvGetLuaState w).1
        w.main).1 w.main).1 w.main c) w.main w.threads.length 1) w.threads.length 0).1.registry =
        (w.registry.takeRef (Value.thread w.threads.length)).1 ∧
    (∀ K, K ≠ w.threads.length →
      (lua_pcall env (lua_xmove (lua_rawgeti (luaL_ref (lua_newthread (pvGetLuaState w).1
        w.main).1 w.main).1 w.main c) w.main w.threads.length 1) w.threads.length 0).1.stack K =
        w.stack K) ∧
    (lua_pcall env (lua_xmove (lua_rawgeti (luaL_ref (lua_newthread (pvGetLuaState w).1
        w.main).1 w.main).1 w.main c) w.main w.threads.length 1) w.threads.length 0).1.threads.length =
        w.threads.length + 1 ∧
    (lua_pcall env (lua_xmove (lua_rawgeti (luaL_ref (lua_newthread (pvGetLuaState w).1
        w.main).1 w.main).1 w.main c) w.main w.threads.length 1) w.threads.length 0).1.api =
      w.api ++
      [LuaCall.pvGetLuaState w.main,
       LuaCall.lua_newthread w.main w.threads.length,
       LuaCall.luaL_ref w.main (w.registry.takeRef (Value.thread w.threads.length)).2,
       LuaCall.lua_rawgeti w.main c,
       LuaCall.lua_xmove w.main w.threads.length 1,
       LuaCall.lua_pcall w.threads.length 0 0
         (callStatus env ((w.registry.takeRef (Value.thread w.threads.length)).1.get c))] := by
  have hmn : w.main ≠ w.threads.length := Nat.ne_of_lt hm
  generalize h1 : (pvGetLuaState w).1 = w1
  have l1 : w1.threads.length = w.threads.length := by rw [← h1]; rfl
  have r1 : w1.registry = w.registry := by rw [← h1]; rfl
  have a1 : w1.api = w.api ++ [LuaCall.pvGetLuaState w.main] := by rw [← h1]; rfl
  have s1 : ∀ K, w1.stack K = w.stack K := fun K => by rw [← h1]; rfl
  have hm1 : w.main < w1.threads.length := by rw [l1]; exact hm
  generalize h2 : (lua_newthread w1 w.main).1 = w2
  have l2 : w2.threads.length = w.threads.length + 1 := by
    rw [← h2, lua_newthread_threads_length, l1]
  have r2 : w2.registry = w.registry := by rw [← h2]; simpa using r1
  have a2 : w2.api = w.api ++ [LuaCall.pvGetLuaState w.main,
      LuaCall.lua_newthread w.main w.threads.length] := by
    rw [← h2]; simp [a1, l1]
  have s2 : ∀ K, w2.stack K = if K = w.main then w.stack w.main ++ [Value.thread w.threads.length]
      else if K = w.threads.length then [] else w.stack K := fun K => by
    rw [← h2, lua_newthread_stack w1 w.main K hm1, l1, s1, s1]
  have top2 : w2.stack w.main = w.stack w.main ++ [Value.thread w.threads.length] := by
    rw [s2]; simp
  obtain ⟨q1, q2, q3⟩ := luaL_ref_top w2 w.main _ _ top2 (by simp)
  generalize h3 : luaL_ref w2 w.main = p3 at q1 q2 q3
  have a3 : p3.1.api = w.api ++ [LuaCall.pvGetLuaState w.main,
      LuaCall.lua_newthread w.main w.threads.length,
      LuaCall.luaL_ref w.main (w.registry.takeRef (Value.thread w.threads.length)).2] := by
    rw [← h3, luaL_ref_api, a2, h3, q1, r2]; simp
  have l3 : p3.1.threads.length = w.threads.length + 1 := by
    rw [← h3, luaL_ref_threads_length, l2]
  rw [r2] at q1 q2
  have s3 : ∀ K, p3.1.stack K = if K = w.threads.length then [] else w.stack K := fun K => by
    rw [q3, s2]
    by_cases hK : K = w.main
    · subst hK; simp [hmn]
    · simp [hK]
  generalize h4 : lua_rawgeti p3.1 w.main c = w4
  have hm3 : w.main < p3.1.threads.length := by rw [l3]; omega
  have l4 : w4.threads.length = w.threads.length + 1 := by
    rw [← h4, lua_rawgeti_threads_length, l3]
  have r4 : w4.registry = (w.registry.takeRef (Value.thread w.threads.length)).1 := by
    rw [← h4]; simpa using q2
  have s4 : ∀ K, w4.stack K =
      if K = w.main then w.stack w.main ++
        [(w.registry.takeRef (Value.thread w.threads.length)).1.get c]
      else if K = w.threads.length then [] else w.stack K := fun K => by
    rw [← h4, lua_rawgeti_stack _ _ _ _ hm3, q2, s3, s3]
    by_cases hK : K = w.main
    · subst hK; simp [hmn]
    · simp [hK]
  have a4 : w4.api = p3.1.api ++ [LuaCall.lua_rawgeti w.main c] := by rw [← h4]; rfl
  generalize h5 : lua_xmove w4 w.main w.threads.length 1 = w5
  have top4 : w4.stack w.main = w.stack w.main ++
      [(w.registry.takeRef (Value.thread w.threads.length)).1.get c] := by
    rw [s4]; simp
  have l5 : w5.threads.length = w.threads.length + 1 := by
    rw [← h5, lua_xmove_threads_length, l4]
  have s5 : ∀ K, w5.stack K =
      if K = w.threads.length then
        [(w.registry.takeRef (Value.thread w.threads.length)).1.get c]
      else w.stack K := fun K => by
    rw [← h5, lua_xmove_one_stack w4 w.main w.threads.length K _ _ hmn (by omega) (by omega) top4,
      s4, s4]
    by_cases hK : K = w.main
    · subst hK; simp [hmn]
    · by_cases hK2 : K = w.threads.length
      · subst hK2; simp [Ne.symm hmn]
      · simp [hK, hK2]
  have r5 : w5.registry = (w.registry.takeRef (Value.thread w.threads.length)).1 := by
    rw [← h5]; simpa using r4
  have a5 : w5.api = w4.api ++ [LuaCall.lua_xmove w.main w.threads.length 1] := by
    rw [← h5]; simp
  have top5 : w5.stack w.threads.length =
      [(w.registry.takeRef (Value.thread w.threads.length)).1.get c] := by
    rw [s5]; simp
  have hp := fun K => lua_pcall_zero env w5 w.threads.length K _ (by omega) top5
  generalize h6 : lua_pcall env w5 w.threads.length 0 = p6 at hp
  have a6 : p6.1.api = w5.api ++ [LuaCall.lua_pcall w.threads.length 0 0 p6.2] := by
    rw [← h6]; rfl
  have r6 : p6.1.registry = (w.registry.takeRef (Value.thread w.threads.length)).1 := by
    rw [← h6]; simpa using r5
  have l6 : p6.1.threads.length = w.threads.length + 1 := by
    rw [← h6, lua_pcall_threads_length, l5]
  refine ⟨top2, ?_, q1, top4, ?_, r6, ?_, l6, ?_⟩
  · rw [s3]; simp [hmn]
  · rw [s5]; simp [hmn]
  · intro K hK
    rw [(hp K).2, s5]; simp [hK]
  · simp [a6, a5, a4, a3, (hp 0).1]

/-- A fire of a unit whose entry is not `LUA_NOREF`, from a state whose main
interpreter state exists: every component of the state reached. -/
theorem fire_effect (env : Env) (w : World) (arg : Int) (e : tmr_callback_t)
    (he : w.entry (toInt32 arg) = some e) (hne : e.callback ≠ LUA_NOREF)
    (hm : w.main < w.threads.length) :
    (callback_func env w arg).1.registry =
        (w.registry.takeRef (Value.thread w.threads.length)).1.releaseRef
          (w.registry.takeRef (Value.thread w.threads.length)).2 ∧
    (∀ K, K ≠ w.threads.length → (callback_func env w arg).1.stack K = w.stack K) ∧
    (callback_func env w arg).1.threads.length = w.threads.length + 1 ∧
    (callback_func env w arg).1.api = w.api ++
      [LuaCall.pvGetLuaState w.main,
       LuaCall.lua_newthread w.main w.threads.length,
       LuaCall.luaL_ref w.main (w.registry.takeRef (Value.thread w.threads.length)).2,
       LuaCall.lua_rawgeti w.main e.callback,
       LuaCall.lua_xmove w.main w.threads.length 1,
       LuaCall.lua_pcall w.threads.length 0 0
         (callStatus env ((w.registry.takeRef (Value.thread w.threads.length)).1.get e.callback)),
       LuaCall.luaL_unref w.threads.length
         (w.registry.takeRef (Value.thread w.threads.length)).2] := by
  obtain ⟨_, _, f3, _, _, f6, f7, f8, f9⟩ := fire_steps env w e.callback hm
  rw [callback_func_some env w arg e he hne]
  refine ⟨?_, ?_, ?_, ?_⟩
  · simp only [luaL_unref_registry, f6, f3]
  · intro K hK
    exact f7 K hK
  · exact f8
  · simp only [luaL_unref_api, f9, f3]; simp

/-- The trampoline never writes the table, the userdata blocks or the driver. -/
theorem fire_frame (env : Env) (w : World) (arg : Int) :
    (callback_func env w arg).1.callbacks = w.callbacks ∧
    (callback_func env w arg).1.main = w.main ∧
    (callback_func env w arg).1.udata = w.udata ∧
    (callback_func env w arg).1.driver = w.driver := by
  cases he : w.entry (toInt32 arg) with
  | none => simp [callback_func, he]
  | some e =>
    by_cases hne : e.callback = LUA_NOREF
    · rw [callback_func_none env w arg e he hne]; simp
    · rw [callback_func_some env w arg e he hne]; simp

theorem fire_result (env : Env) (w : World) (arg : Int) (e : tmr_callback_t)
    (he : w.entry (toInt32 arg) = some e) :
    (callback_func env w arg).2 = Result.returned 0 := by
  by_cases hne : e.callback = LUA_NOREF
  · rw [callback_func_none env w arg e he hne]
  · rw [callback_func_some env w arg e he hne]

/-! ## The table after an attachment -/

theorem entry_set (w : World) (i : Nat) (x : tmr_callback_t) (v : Int) (hi : i < w.callbacks.length) :
    ({ w with callbacks := w.callbacks.set i x } : World).entry v =
      if v = (i : Int) then some x else w.entry v := by
  unfold World.entry
  by_cases hv : 0 ≤ v
  · simp only [hv, if_true, List.getElem?_set]
    by_cases hvi : v = (i : Int)
    · subst hvi; simp [hi]
    · have : ¬ i = v.toNat := by omega
      simp [hvi, this]
  · have : ¬ v = (i : Int) := by omega
    simp [hv, this]

theorem entry_congr (w w2 : World) (h : w2.callbacks = w.callbacks) (v : Int) :
    w2.entry v = w.entry v := by
  unfold World.entry; rw [h]

theorem entry_some_iff (w : World) (v : Int) :
    (∃ e, w.entry v = some e) ↔ 0 ≤ v ∧ v < w.callbacks.length := by
  unfold World.entry
  by_cases hv : 0 ≤ v
  · simp only [hv, if_true, true_and]
    by_cases h2 : v.toNat < w.callbacks.length
    · have : v < (w.callbacks.length : Int) := by omega
      simp [h2, this]
    · have h3 : ¬ v < (w.callbacks.length : Int) := by omega
      have h4 : w.callbacks.length ≤ v.toNat := not_lt.mp h2
      simp [h3, List.getElem?_eq_none_iff.mpr h4]
  · simp [hv]

/-- The table after a hardware attachment whose checks passed. -/
theorem hw_attach_entry (env : Env) (w : World) (L : Nat) (a1 a2 : Int) (cb : Nat)
    (e0 : tmr_callback_t)
    (h1 : luaL_checkinteger w L 1 = some a1) (h2 : luaL_checkinteger w L 2 = some a2)
    (h3 : lua_index w L 3 = some (Value.function cb))
    (hmic : 500 ≤ toUInt32 a2) (he : w.entry (toInt32 a1) = some e0) (v : Int) :
    (ltmr_hw_attach env w L).1.entry v =
      if v = toInt32 a1 then some ⟨(w.registry.takeRef (Value.function cb)).2, some L⟩
      else w.entry v := by
  obtain ⟨hc, _⟩ := hw_attach_registered env w L a1 a2 cb e0 h1 h2 h3 hmic he
  obtain ⟨h0, hlt⟩ := (entry_some_iff w (toInt32 a1)).mp ⟨e0, he⟩
  have hi : (toInt32 a1).toNat < w.callbacks.length := by omega
  have := entry_set w (toInt32 a1).toNat
    ⟨(w.registry.takeRef (Value.function cb)).2, some L⟩ v hi
  rw [Int.toNat_of_nonneg h0] at this
  rw [← this]
  exact entry_congr _ _ hc v

/-! ## Outcomes of the constructors -/

theorem isfunction_iff (w : World) (L i : Nat) :
    isfunction w L i = true ↔ ∃ cb, lua_index w L i = some (Value.function cb) := by
  unfold isfunction
  cases h : lua_index w L i with
  | none => simp
  | some v => cases v <;> simp

theorem luaL_checkinteger_iff (w : World) (L i : Nat) (a : Int) :
    luaL_checkinteger w L i = some a ↔ lua_index w L i = some (Value.integer a) := by
  unfold luaL_checkinteger
  cases h : lua_index w L i with
  | none => simp
  | some v => cases v <;> simp

/-- An attachment that fails with `TIMER_ERR_INVALID_PERIOD` changed nothing. -/
theorem hw_attach_invalid_period (env : Env) (w : World) (L : Nat) :
    (ltmr_hw_attach env w L).2 = Result.exception TimerErr.TIMER_ERR_INVALID_PERIOD →
    (ltmr_hw_attach env w L).1 = w := by
  unfold ltmr_hw_attach
  cases h1 : luaL_checkinteger w L 1 with
  | none => simp
  | some a1 =>
    cases h2 : luaL_checkinteger w L 2 with
    | none => simp
    | some a2 =>
      by_cases hm : toUInt32 a2 < 500
      · simp [hm]
      · by_cases hf : isfunction w L 3 = true
        · simp only [hm, hf, if_false, not_true_eq_false]
          cases he : (luaL_ref (lua_pushvalue w L 3) L).1.entry (toInt32 a1) with
          | none => simp [he]
          | some e =>
            simp only [he]
            cases hok : env.newuserdata_ok
            · simp [lua_newuserdata, hok]
            · cases hs : env.tmr_setup (toInt32 a1) (toUInt32 a2) <;>
                simp [lua_newuserdata, hok, hs]
        · simp [hm, hf]

/-- A hardware attachment that returns its handle passed every check, got its
block and armed the driver without error. -/
theorem hw_attach_returned (env : Env) (w : World) (L : Nat)
    (h : (ltmr_hw_attach env w L).2 = Result.returned 1) :
    ∃ a1 a2 cb e0, luaL_checkinteger w L 1 = some a1 ∧ luaL_checkinteger w L 2 = some a2 ∧
      lua_index w L 3 = some (Value.function cb) ∧ 500 ≤ toUInt32 a2 ∧
      w.entry (toInt32 a1) = some e0 ∧ env.newuserdata_ok = true ∧
      env.tmr_setup (toInt32 a1) (toUInt32 a2) = none := by
  revert h
  unfold ltmr_hw_attach
  cases h1 : luaL_checkinteger w L 1 with
  | none => simp
  | some a1 =>
    cases h2 : luaL_checkinteger w L 2 with
    | none => simp
    | some a2 =>
      by_cases hm : toUInt32 a2 < 500
      · simp [hm]
      · by_cases hf : isfunction w L 3 = true
        · simp only [hm, hf, if_false, not_true_eq_false]
          obtain ⟨cb, h3⟩ := (isfunction_iff w L 3).mp hf
          cases he : (luaL_ref (lua_pushvalue w L 3) L).1.entry (toInt32 a1) with
          | none => simp [he]
          | some e =>
            simp only [he]
            have he' : w.entry (toInt32 a1) = some e := by simpa using he
            cases hok : env.newuserdata_ok
            · simp [lua_newuserdata, hok]
            · cases hs : env.tmr_setup (toInt32 a1) (toUInt32 a2)
              · intro _
                exact ⟨a1, a2, cb, e, rfl, rfl, h3, by omega, he', rfl, hs⟩
              · simp [lua_newuserdata, hok, hs]
        · simp [hm, hf]

/-- The software-only constructor: its effect for either answer of the allocator. -/
theorem sw_attach_effect (env : Env) (w : World) (L : Nat) :
    (ltmr_sw_attach env w L).1.callbacks = w.callbacks ∧
    (ltmr_sw_attach env w L).1.driver = w.driver ∧
    (ltmr_sw_attach env w L).1.registry = w.registry ∧
    (env.newuserdata_ok = false →
      (ltmr_sw_attach env w L).2 = Result.exception TimerErr.TIMER_ERR_NOT_ENOUGH_MEMORY) ∧
    (env.newuserdata_ok = true →
      (ltmr_sw_attach env w L).2 = Result.returned 1 ∧
      (L < w.threads.length →
        (ltmr_sw_attach env w L).1.topHandle L = some ⟨some tmr_type.TmrSW, none, true⟩ ∧
        (ltmr_sw_attach env w L).1.stack L = w.stack L ++ [Value.userdata w.udata.length])) := by
  unfold ltmr_sw_attach
  cases hok : env.newuserdata_ok
  · simp [lua_newuserdata, hok]
  · simp only [true_implies, Bool.true_eq_false, false_implies, true_and]
    have hcases : ∀ p4 : World × Option Nat, p4 = lua_newuserdata env w L → p4.2 = some w.udata.length := by
      intro p4 hp4; subst hp4; simp [lua_newuserdata, hok]
    generalize hp4 : lua_newuserdata env w L = p4
    have h2 := hcases p4 hp4.symm
    obtain ⟨w4, r4⟩ := p4
    simp only at h2
    subst h2
    have hc4 : w4.callbacks = w.callbacks := by
      have := lua_newuserdata_callbacks env w L; rw [hp4] at this; exact this
    have hd4 : w4.driver = w.driver := by
      have := lua_newuserdata_driver env w L; rw [hp4] at this; exact this
    have hr4 : w4.registry = w.registry := by
      have := lua_newuserdata_registry env w L; rw [hp4] at this; exact this
    simp only [set_tmr_metatable_callbacks, set_tmr_metatable_driver, set_tmr_metatable_registry,
      hc4, hd4, hr4, true_and]
    intro hL
    obtain ⟨_, n2, _, n4⟩ := lua_newuserdata_ok env w L hok hL
    rw [hp4] at n2 n4
    simp only at n2 n4
    have htop : (w4.stack L).getLast? = some (Value.userdata w.udata.length) := by
      rw [n4]; simp
    have hst : (w4.stack L) = w.stack L ++ [Value.userdata w.udata.length] := by
      rw [n4]; simp
    unfold World.topHandle set_tmr_metatable
    simp [World.stack] at htop hst
    simp [World.stack, htop, n2, modify_append_last, hst]

/-! ## Sequences of attachments -/

theorem setStack_stack_self (w : World) (L : Nat) (st : List Value) (hL : L < w.threads.length) :
    (w.setStack L st).stack L = st := by
  rw [setStack_stack]; simp [hL]

/-- One valid attachment: the table, the registry and the sizes afterwards. -/
theorem run_valid (w : World) (c : AttachCall) (hsz : w.callbacks.length ≤ 2147483648)
    (hc : c.valid w) :
    (∀ v, (c.run w).entry v =
      if v = c.unit then some ⟨(w.registry.takeRef (Value.function c.cb)).2, some c.L⟩
      else w.entry v) ∧
    (c.run w).registry = (w.registry.takeRef (Value.function c.cb)).1 ∧
    (c.run w).callbacks.length = w.callbacks.length ∧
    (c.run w).threads.length = w.threads.length := by
  obtain ⟨hL, hu0, hu1, hp0, hp1⟩ := hc
  have hst : (w.setStack c.L c.frame).stack c.L =
      [Value.integer c.unit, Value.integer c.period, Value.function c.cb] :=
    setStack_stack_self w c.L _ hL
  have h1 : luaL_checkinteger (w.setStack c.L c.frame) c.L 1 = some c.unit := by
    simp [luaL_checkinteger, lua_index, hst]
  have h2 : luaL_checkinteger (w.setStack c.L c.frame) c.L 2 = some c.period := by
    simp [luaL_checkinteger, lua_index, hst]
  have h3 : lua_index (w.setStack c.L c.frame) c.L 3 = some (Value.function c.cb) := by
    simp [lua_index, hst]
  have hid : toInt32 c.unit = c.unit := toInt32_of_range c.unit (by omega) (by omega)
  have hmv : toUInt32 c.period = c.period.toNat := toUInt32_of_range c.period (by omega) hp1
  have hmic : 500 ≤ toUInt32 c.period := by rw [hmv]; omega
  obtain ⟨e0, he⟩ := (entry_some_iff w c.unit).mpr ⟨hu0, hu1⟩
  have he' : (w.setStack c.L c.frame).entry (toInt32 c.unit) = some e0 := by
    rw [hid]; simpa using he
  have htop : ltmr_attach c.env (w.setStack c.L c.frame) c.L =
      ltmr_hw_attach c.env (w.setStack c.L c.frame) c.L := by
    simp [ltmr_attach, lua_gettop, hst]
  obtain ⟨hcb, hr, hlen, _⟩ :=
    hw_attach_registered c.env _ c.L c.unit c.period c.cb e0 h1 h2 h3 hmic he'
  have hent := hw_attach_entry c.env _ c.L c.unit c.period c.cb e0 h1 h2 h3 hmic he'
  unfold AttachCall.run
  rw [htop]
  refine ⟨fun v => ?_, ?_, ?_, ?_⟩
  · rw [hent v, hid]; simp
  · rw [hr]; simp
  · rw [hcb]; simp
  · rw [hlen]; simp

theorem valid_of_lengths (w w2 : World) (c : AttachCall)
    (h1 : w2.threads.length = w.threads.length) (h2 : w2.callbacks.length = w.callbacks.length)
    (hc : c.valid w) : c.valid w2 := by
  unfold AttachCall.valid at hc ⊢
  rw [h1, h2]; exact hc

/-- Valid attachments keep the sizes of the table and of the set of states. -/
theorem attachAll_lengths (cs : List AttachCall) :
    ∀ (w : World), w.callbacks.length ≤ 2147483648 → (∀ x ∈ cs, x.valid w) →
      (attachAll w cs).callbacks.length = w.callbacks.length ∧
      (attachAll w cs).threads.length = w.threads.length := by
  induction cs with
  | nil => intro w _ _; exact ⟨rfl, rfl⟩
  | cons c cs ih =>
    intro w hsz hv
    obtain ⟨_, _, l1, l2⟩ := run_valid w c hsz (hv c (by simp))
    have hv2 : ∀ x ∈ cs, x.valid (c.run w) := fun x hx =>
      valid_of_lengths w _ x l2 l1 (hv x (by simp [hx]))
    obtain ⟨m1, m2⟩ := ih (c.run w) (by rw [l1]; exact hsz) hv2
    have hcons : attachAll w (c :: cs) = attachAll (c.run w) cs := rfl
    rw [hcons, m1, m2, l1, l2]; exact ⟨rfl, rfl⟩

/-- Attachments to other units leave an entry and the callback under its live
reference as they are. -/
theorem attachAll_keeps (cs : List AttachCall) (u : Int) (e : tmr_callback_t) :
    ∀ (w : World), w.callbacks.length ≤ 2147483648 →
      (∀ x ∈ cs, x.valid w ∧ x.unit ≠ u) →
      w.entry u = some e → w.registry.live e.callback = true →
      (attachAll w cs).entry u = some e ∧
      (attachAll w cs).registry.live e.callback = true ∧
      (attachAll w cs).registry.get e.callback = w.registry.get e.callback := by
  induction cs with
  | nil => intro w _ _ he hl; exact ⟨he, hl, rfl⟩
  | cons c cs ih =>
    intro w hsz hv he hl
    obtain ⟨hcv, hcu⟩ := hv c (by simp)
    obtain ⟨k1, k2, l1, l2⟩ := run_valid w c hsz hcv
    have hv2 : ∀ x ∈ cs, x.valid (c.run w) ∧ x.unit ≠ u := fun x hx =>
      ⟨valid_of_lengths w _ x l2 l1 (hv x (by simp [hx])).1, (hv x (by simp [hx])).2⟩
    have he2 : (c.run w).entry u = some e := by
      rw [k1 u]; simp [Ne.symm hcu, he]
    obtain ⟨t1, t2⟩ := takeRef_keeps w.registry (Value.function c.cb) e.callback hl
    have hl2 : (c.run w).registry.live e.callback = true := by rw [k2]; exact t1
    obtain ⟨m1, m2, m3⟩ := ih (c.run w) (by rw [l1]; exact hsz) hv2 he2 hl2
    have hcons : attachAll w (c :: cs) = attachAll (c.run w) cs := rfl
    rw [hcons]
    refine ⟨m1, m2, ?_⟩
    rw [m3, k2, t2]

theorem attachAll_append (w : World) (xs ys : List AttachCall) :
    attachAll w (xs ++ ys) = attachAll (attachAll w xs) ys := by
  simp [attachAll, List.foldl_append]

/-! ## Operations that do not register -/

/-- The table after `luaopen_tmr`: every entry holds the reference 0 written by
`memset`, which is not the sentinel `LUA_NOREF`. -/
theorem luaopen_tmr_zeroes (w : World) (L : Nat) (u : Int) (e : tmr_callback_t)
    (h : (luaopen_tmr w L).1.entry u = some e) : e = ⟨0, none⟩ ∧ e.callback ≠ LUA_NOREF := by
  unfold luaopen_tmr World.entry at h
  simp only [log_callbacks] at h
  split at h
  · rw [List.getElem?_map] at h
    cases hx : w.callbacks[u.toNat]? with
    | none => simp [hx] at h
    | some x =>
      simp [hx] at h
      subst h
      exact ⟨rfl, by decide⟩
  · simp at h

/-- C2 (the code at the failing input): `tmr.attach(0, -1, f)` does not fail with
`TIMER_ERR_INVALID_PERIOD`: the period is stored in `uint32_t micros` as
4294967295, the check `micros < 500` passes, the callback is registered for
unit 0, the driver is set up with that period and the handle is returned. -/
theorem attach_negative_period_accepted :
    (ltmr_attach quietEnv
        (bootWorld.setStack 0 [Value.integer 0, Value.integer (-1), Value.function 5]) 0).2
      = Result.returned 1 ∧
    (ltmr_attach quietEnv
        (bootWorld.setStack 0 [Value.integer 0, Value.integer (-1), Value.function 5]) 0).1.driver
      = [DriverCall.tmr_setup 0 4294967295 Trampoline.callback_func 1] ∧
    (ltmr_attach quietEnv
        (bootWorld.setStack 0 [Value.integer 0, Value.integer (-1), Value.function 5]) 0).1.entry 0
      = some ⟨3, some 0⟩ := by
  decide

/-- The period check of `ltmr_hw_attach`: with an integer unit id and an integer
period whose value in `uint32_t micros` is below 500 (every period from 0 to 499
is one), `attach` with three arguments fails with `TIMER_ERR_INVALID_PERIOD`,
whatever the third argument is. -/
theorem attach_short_period_rejected (env : Env) (w : World) (L : Nat) (u period : Int)
    (cb : Value) (hst : w.stack L = [Value.integer u, Value.integer period, cb])
    (hp : toUInt32 period < 500) :
    (ltmr_attach env w L).2 = Result.exception TimerErr.TIMER_ERR_INVALID_PERIOD := by
  have h1 : luaL_checkinteger w L 1 = some u := by simp [luaL_checkinteger, lua_index, hst]
  have h2 : luaL_checkinteger w L 2 = some period := by simp [luaL_checkinteger, lua_index, hst]
  simp [ltmr_attach, lua_gettop, hst, ltmr_hw_attach, h1, h2, hp]

theorem attach_short_period_rejected_witness :
    (bootWorld.setStack 0 [Value.integer 0, Value.integer 499, Value.nil]).stack 0
      = [Value.integer 0, Value.integer 499, Value.nil] ∧
    toUInt32 499 < 500 ∧
    (ltmr_attach quietEnv (bootWorld.setStack 0 [Value.integer 0, Value.integer 499, Value.nil]) 0).2
      = Result.exception TimerErr.TIMER_ERR_INVALID_PERIOD :=
  ⟨by decide, by decide,
    attach_short_period_rejected quietEnv _ 0 0 499 Value.nil (by decide) (by decide)⟩

/-- C5: whenever `attach` fails with `TIMER_ERR_INVALID_PERIOD`, the state is the
one before the call: the table `callbacks` is identical, the registry holds no
new reference, the driver adapter has received no call, and no interpreter
operation has been made. -/
theorem attach_invalid_period_atomic (env : Env) (w : World) (L : Nat)
    (h : (ltmr_attach env w L).2 = Result.exception TimerErr.TIMER_ERR_INVALID_PERIOD) :
    (ltmr_attach env w L).1 = w ∧
    (ltmr_attach env w L).1.callbacks = w.callbacks ∧
    (ltmr_attach env w L).1.registry = w.registry ∧
    (ltmr_attach env w L).1.driver = w.driver ∧
    (ltmr_attach env w L).1.api = w.api := by
  have key : (ltmr_attach env w L).1 = w := by
    unfold ltmr_attach at h ⊢
    by_cases h3 : lua_gettop w L = 3
    · simp only [h3, if_true] at h ⊢
      exact hw_attach_invalid_period env w L h
    · simp only [h3, if_false] at h
      obtain ⟨_, _, _, hf, ht⟩ := sw_attach_effect env w L
      cases hok : env.newuserdata_ok
      · rw [hf hok] at h; simp at h
      · rw [(ht hok).1] at h; simp at h
  rw [key]
  exact ⟨rfl, rfl, rfl, rfl, rfl⟩

theorem attach_invalid_period_atomic_witness :
    (ltmr_attach quietEnv shortPeriodFrame 0).2
      = Result.exception TimerErr.TIMER_ERR_INVALID_PERIOD ∧
    ((ltmr_attach quietEnv shortPeriodFrame 0).1 = shortPeriodFrame ∧
     (ltmr_attach quietEnv shortPeriodFrame 0).1.callbacks = shortPeriodFrame.callbacks ∧
     (ltmr_attach quietEnv shortPeriodFrame 0).1.registry = shortPeriodFrame.registry ∧
     (ltmr_attach quietEnv shortPeriodFrame 0).1.driver = shortPeriodFrame.driver ∧
     (ltmr_attach quietEnv shortPeriodFrame 0).1.api = shortPeriodFrame.api) :=
  ⟨by decide, attach_invalid_period_atomic quietEnv shortPeriodFrame 0 (by decide)⟩

/-- C3: last-write-wins law.  In a system whose table a C `int` can index, and
from any state reached by valid attachments (`before`, which may be empty), a
valid attachment `c` leaves, after its registration and whatever the outcome of
the allocation and of the arming: the entry of its unit holding exactly the
registry reference created for its callback in that call, with the attaching
state as owner; that reference yielding the callback; and the entry of every
other unit unchanged.  Hence after any further valid attachments to other units
(`after`), the entry of the unit is still the one written by `c`, the last
attachment made to it, and its reference still yields the callback of `c`. -/
theorem attach_last_write_wins (w : World) (before after : List AttachCall) (c : AttachCall)
    (hsz : w.callbacks.length ≤ 2147483648)
    (hb : ∀ x ∈ before, x.valid w) (hc : c.valid w)
    (ha : ∀ x ∈ after, x.valid w ∧ x.unit ≠ c.unit) :
    (c.run (attachAll w before)).entry c.unit =
      some ⟨((attachAll w before).registry.takeRef (Value.function c.cb)).2, some c.L⟩ ∧
    (c.run (attachAll w before)).registry.get
      ((attachAll w before).registry.takeRef (Value.function c.cb)).2 = Value.function c.cb ∧
    (∀ v, v ≠ c.unit → (c.run (attachAll w before)).entry v = (attachAll w before).entry v) ∧
    (attachAll w (before ++ c :: after)).entry c.unit =
      some ⟨((attachAll w before).registry.takeRef (Value.function c.cb)).2, some c.L⟩ ∧
    (attachAll w (before ++ c :: after)).registry.get
      ((attachAll w before).registry.takeRef (Value.function c.cb)).2 = Value.function c.cb := by
  obtain ⟨l1, l2⟩ := attachAll_lengths before w hsz hb
  have hsz0 : (attachAll w before).callbacks.length ≤ 2147483648 := by rw [l1]; exact hsz
  have hc0 : c.valid (attachAll w before) := valid_of_lengths w _ c l2 l1 hc
  obtain ⟨k1, k2, m1, m2⟩ := run_valid (attachAll w before) c hsz0 hc0
  obtain ⟨f1, f2, f3⟩ := takeRef_fresh (attachAll w before).registry (Value.function c.cb)
  have e1 : (c.run (attachAll w before)).entry c.unit =
      some ⟨((attachAll w before).registry.takeRef (Value.function c.cb)).2, some c.L⟩ := by
    rw [k1 c.unit]; simp
  have g1 : (c.run (attachAll w before)).registry.get
      ((attachAll w before).registry.takeRef (Value.function c.cb)).2 = Value.function c.cb := by
    rw [k2]; exact f3
  have hsz1 : (c.run (attachAll w before)).callbacks.length ≤ 2147483648 := by
    rw [m1]; exact hsz0
  have ha1 : ∀ x ∈ after, x.valid (c.run (attachAll w before)) ∧ x.unit ≠ c.unit := fun x hx =>
    ⟨valid_of_lengths w _ x (by rw [m2, l2]) (by rw [m1, l1]) (ha x hx).1, (ha x hx).2⟩
  obtain ⟨s1, _, s3⟩ := attachAll_keeps after c.unit _ (c.run (attachAll w before)) hsz1 ha1 e1
    (by rw [k2]; exact f2)
  have happ : attachAll w (before ++ c :: after) =
      attachAll (c.run (attachAll w before)) after := by
    rw [attachAll_append]; rfl
  refine ⟨e1, g1, fun v hv => ?_, ?_, ?_⟩
  · rw [k1 v]; simp [hv]
  · rw [happ]; exact s1
  · rw [happ]; exact s3.trans g1

theorem attach_last_write_wins_witness :
    bootWorld.callbacks.length ≤ 2147483648 ∧
    (∀ x ∈ [firstAttach], x.valid bootWorld) ∧ secondAttach.valid bootWorld ∧
    (∀ x ∈ [otherAttach], x.valid bootWorld ∧ x.unit ≠ secondAttach.unit) ∧
    (attachAll bootWorld ([firstAttach] ++ secondAttach :: [otherAttach])).entry secondAttach.unit =
      some ⟨((attachAll bootWorld [firstAttach]).registry.takeRef
        (Value.function secondAttach.cb)).2, some secondAttach.L⟩ ∧
    (attachAll bootWorld ([firstAttach] ++ secondAttach :: [otherAttach])).registry.get
      ((attachAll bootWorld [firstAttach]).registry.takeRef (Value.function secondAttach.cb)).2 =
        Value.function secondAttach.cb :=
  ⟨by decide, by decide, by decide, by decide,
    (attach_last_write_wins bootWorld [firstAttach] [otherAttach] secondAttach
      (by decide) (by decide) (by decide) (by decide)).2.2.2⟩

theorem ne_noref_of_live (r : Registry) (c : Int) (h : r.live c = true) : c ≠ LUA_NOREF := by
  simp only [Registry.live, Bool.and_eq_true, decide_eq_true_eq] at h
  unfold LUA_NOREF
  omega

/-- C10: the trampoline is resource-neutral on the main interpreter state.  For
a unit whose entry holds a live registry reference, and whatever the status of
the protected call: the thread pushed on the main stack by `lua_newthread` is
popped by `luaL_ref`, the callable pushed by `lua_rawgeti` is popped by
`lua_xmove`, and after `callback_func` the main state is the same, its stack has
the contents it had before, and every registry reference is live exactly when it
was before and yields the value it yielded before (the reference taken on the
thread is the one released; the callback's reference is neither released nor
replaced). -/
theorem callback_func_resource_neutral (env : Env) (w : World) (arg : Int) (e : tmr_callback_t)
    (hm : w.main < w.threads.length)
    (he : w.entry (toInt32 arg) = some e) (hl : w.registry.live e.callback = true) :
    (lua_newthread (pvGetLuaState w).1 w.main).1.stack w.main =
        w.stack w.main ++ [Value.thread w.threads.length] ∧
    (luaL_ref (lua_newthread (pvGetLuaState w).1 w.main).1 w.main).1.stack w.main =
        w.stack w.main ∧
    (lua_rawgeti (luaL_ref (lua_newthread (pvGetLuaState w).1 w.main).1 w.main).1 w.main
        e.callback).stack w.main = w.stack w.main ++ [w.registry.get e.callback] ∧
    (lua_xmove (lua_rawgeti (luaL_ref (lua_newthread (pvGetLuaState w).1 w.main).1 w.main).1
        w.main e.callback) w.main w.threads.length 1).stack w.main = w.stack w.main ∧
    (callback_func env w arg).1.main = w.main ∧
    (callback_func env w arg).1.stack w.main = w.stack w.main ∧
    (∀ ref, (callback_func env w arg).1.registry.live ref = w.registry.live ref) ∧
    (∀ ref, (callback_func env w arg).1.registry.get ref = w.registry.get ref) := by
  have hne := ne_noref_of_live w.registry e.callback hl
  obtain ⟨f1, f2, _, f4, f5, _⟩ := fire_steps env w e.callback hm
  obtain ⟨g1, g2, _, _⟩ := fire_effect env w arg e he hne hm
  obtain ⟨_, hmain, _, _⟩ := fire_frame env w arg
  obtain ⟨_, t2⟩ := takeRef_keeps w.registry (Value.thread w.threads.length) e.callback hl
  refine ⟨f1, f2, ?_, f5, hmain, g2 w.main (Nat.ne_of_lt hm), fun ref => ?_, fun ref => ?_⟩
  · rw [f4, t2]
  · rw [g1]; exact live_release_takeRef _ _ ref
  · rw [g1]; exact get_release_takeRef _ _ ref

theorem callback_func_resource_neutral_witness :
    armedWorld.main < armedWorld.threads.length ∧
    armedWorld.entry (toInt32 1) = some ⟨3, some 0⟩ ∧
    armedWorld.registry.live 3 = true ∧
    (callback_func failingEnv armedWorld 1).1.stack armedWorld.main = armedWorld.stack armedWorld.main ∧
    (∀ ref, (callback_func failingEnv armedWorld 1).1.registry.live ref = armedWorld.registry.live ref) :=
  ⟨by decide, by decide, by decide,
    (callback_func_resource_neutral failingEnv armedWorld 1 ⟨3, some 0⟩
      (by decide) (by decide) (by decide)).2.2.2.2.2.1,
    (callback_func_resource_neutral failingEnv armedWorld 1 ⟨3, some 0⟩
      (by decide) (by decide) (by decide)).2.2.2.2.2.2.1⟩

/-- C4: errors of the callback stop at the trampoline.  For a registered unit
`u` and every outcome of the protected call (`env` fixes the status, success or
any error): `callback_func` returns normally; the table `callbacks` is
unchanged; the operations it makes, the release of the thread's reference last,
and the registry it leaves do not depend on the status; and a later fire of any
registered unit `v` (`u` itself included) again fetches the callback registered
for `v` and runs it in a protected call on a new thread. -/
theorem callback_func_swallows_error (env env2 : Env) (w : World) (u v : Int)
    (eu ev : tmr_callback_t)
    (hm : w.main < w.threads.length)
    (hu : w.entry (toInt32 u) = some eu) (hul : w.registry.live eu.callback = true)
    (hv : w.entry (toInt32 v) = some ev) (hvl : w.registry.live ev.callback = true) :
    (callback_func env w u).2 = Result.returned 0 ∧
    (callback_func env w u).1.callbacks = w.callbacks ∧
    (callback_func env w u).1.api = w.api ++
      [LuaCall.pvGetLuaState w.main,
       LuaCall.lua_newthread w.main w.threads.length,
       LuaCall.luaL_ref w.main (w.registry.takeRef (Value.thread w.threads.length)).2,
       LuaCall.lua_rawgeti w.main eu.callback,
       LuaCall.lua_xmove w.main w.threads.length 1,
       LuaCall.lua_pcall w.threads.length 0 0 (callStatus env (w.registry.get eu.callback)),
       LuaCall.luaL_unref w.threads.length
         (w.registry.takeRef (Value.thread w.threads.length)).2] ∧
    (callback_func env w u).1.registry =
      (w.registry.takeRef (Value.thread w.threads.length)).1.releaseRef
        (w.registry.takeRef (Value.thread w.threads.length)).2 ∧
    (∃ tref, (callback_func env2 (callback_func env w u).1 v).1.api =
      (callback_func env w u).1.api ++
        [LuaCall.pvGetLuaState w.main,
         LuaCall.lua_newthread w.main (w.threads.length + 1),
         LuaCall.luaL_ref w.main tref,
         LuaCall.lua_rawgeti w.main ev.callback,
         LuaCall.lua_xmove w.main (w.threads.length + 1) 1,
         LuaCall.lua_pcall (w.threads.length + 1) 0 0
           (callStatus env2 (w.registry.get ev.callback)),
         LuaCall.luaL_unref (w.threads.length + 1) tref]) := by
  have hune := ne_noref_of_live w.registry eu.callback hul
  have hvne := ne_noref_of_live w.registry ev.callback hvl
  obtain ⟨g1, _, g3, g4⟩ := fire_effect env w u eu hu hune hm
  obtain ⟨hcb, hmain, _, _⟩ := fire_frame env w u
  obtain ⟨_, t2⟩ := takeRef_keeps w.registry (Value.thread w.threads.length) eu.callback hul
  refine ⟨fire_result env w u eu hu, hcb, ?_, g1, ?_⟩
  · rw [g4, t2]
  · -- the later fire, from the state the first one left
    generalize hw1 : (callback_func env w u).1 = w1 at g1 g3 hcb hmain
    have hm1 : w1.main < w1.threads.length := by rw [hmain, g3]; omega
    have hv1 : w1.entry (toInt32 v) = some ev := by rw [entry_congr w w1 hcb]; exact hv
    have hl1 : w1.registry.live ev.callback = true := by
      rw [g1, live_release_takeRef]; exact hvl
    have hget : w1.registry.get ev.callback = w.registry.get ev.callback := by
      rw [g1, get_release_takeRef]
    obtain ⟨_, _, _, k4⟩ := fire_effect env2 w1 v ev hv1 hvne hm1
    obtain ⟨_, s2⟩ := takeRef_keeps w1.registry (Value.thread w1.threads.length) ev.callback hl1
    refine ⟨(w1.registry.takeRef (Value.thread w1.threads.length)).2, ?_⟩
    rw [k4, s2, hget, hmain, g3]

theorem callback_func_swallows_error_witness :
    armedWorld.main < armedWorld.threads.length ∧
    armedWorld.entry (toInt32 1) = some ⟨3, some 0⟩ ∧
    armedWorld.registry.live 3 = true ∧
    (callback_func failingEnv armedWorld 1).2 = Result.returned 0 ∧
    (callback_func failingEnv armedWorld 1).1.callbacks = armedWorld.callbacks ∧
    (∃ tref, (callback_func quietEnv (callback_func failingEnv armedWorld 1).1 1).1.api =
      (callback_func failingEnv armedWorld 1).1.api ++
        [LuaCall.pvGetLuaState armedWorld.main,
         LuaCall.lua_newthread armedWorld.main (armedWorld.threads.length + 1),
         LuaCall.luaL_ref armedWorld.main tref,
         LuaCall.lua_rawgeti armedWorld.main 3,
         LuaCall.lua_xmove armedWorld.main (armedWorld.threads.length + 1) 1,
         LuaCall.lua_pcall (armedWorld.threads.length + 1) 0 0
           (callStatus quietEnv (armedWorld.registry.get 3)),
         LuaCall.luaL_unref (armedWorld.threads.length + 1) tref]) :=
  ⟨by decide, by decide, by decide,
    (callback_func_swallows_error failingEnv quietEnv armedWorld 1 1 ⟨3, some 0⟩ ⟨3, some 0⟩
      (by decide) (by decide) (by decide) (by decide) (by decide)).1,
    (callback_func_swallows_error failingEnv quietEnv armedWorld 1 1 ⟨3, some 0⟩ ⟨3, some 0⟩
      (by decide) (by decide) (by decide) (by decide) (by decide)).2.1,
    (callback_func_swallows_error failingEnv quietEnv armedWorld 1 1 ⟨3, some 0⟩ ⟨3, some 0⟩
      (by decide) (by decide) (by decide) (by decide) (by decide)).2.2.2.2⟩

/-- C6: trampoline dispatch sequence.  For a unit of the table whose entry holds
`LUA_NOREF`, `callback_func` returns with the state unchanged, so it performs no
interpreter operation.  Otherwise the operations it adds are exactly, in this
order and with nothing after them: obtain the main state, create a new thread
from it, take a registry reference `tref` on the main state, fetch the registry
value under the entry's `callback`, move one value from the main state to the
new thread, run a protected call with 0 arguments and 0 results on the new
thread, release `tref`. -/
theorem callback_func_dispatch_sequence (env : Env) (w : World) (arg : Int) (e : tmr_callback_t)
    (he : w.entry (toInt32 arg) = some e) :
    (e.callback = LUA_NOREF → callback_func env w arg = (w, Result.returned 0)) ∧
    (e.callback ≠ LUA_NOREF → ∃ tref status,
      (callback_func env w arg).1.api = w.api ++
        [LuaCall.pvGetLuaState w.main,
         LuaCall.lua_newthread w.main w.threads.length,
         LuaCall.luaL_ref w.main tref,
         LuaCall.lua_rawgeti w.main e.callback,
         LuaCall.lua_xmove w.main w.threads.length 1,
         LuaCall.lua_pcall w.threads.length 0 0 status,
         LuaCall.luaL_unref w.threads.length tref]) := by
  refine ⟨fun hne => callback_func_none env w arg e he hne, fun hne => ?_⟩
  refine ⟨(luaL_ref (lua_newthread (pvGetLuaState w).1 w.main).1 w.main).2,
    (lua_pcall env (lua_xmove (lua_rawgeti (luaL_ref (lua_newthread (pvGetLuaState w).1
      w.main).1 w.main).1 w.main e.callback) w.main w.threads.length 1) w.threads.length 0).2, ?_⟩
  rw [callback_func_some env w arg e he hne]
  simp

theorem callback_func_dispatch_sequence_witness :
    armedWorld.entry (toInt32 1) = some ⟨3, some 0⟩ ∧
    ∃ tref status,
      (callback_func failingEnv armedWorld 1).1.api = armedWorld.api ++
        [LuaCall.pvGetLuaState armedWorld.main,
         LuaCall.lua_newthread armedWorld.main armedWorld.threads.length,
         LuaCall.luaL_ref armedWorld.main tref,
         LuaCall.lua_rawgeti armedWorld.main 3,
         LuaCall.lua_xmove armedWorld.main armedWorld.threads.length 1,
         LuaCall.lua_pcall armedWorld.threads.length 0 0 status,
         LuaCall.luaL_unref armedWorld.threads.length tref] :=
  ⟨by decide,
    (callback_func_dispatch_sequence failingEnv armedWorld 1 ⟨3, some 0⟩ (by decide)).2
      (by decide)⟩

/-- C7: for a software-only handle (a userdata with the `"tmr.timer"` metatable
whose `type` is `TmrSW`) as first argument, and every state and driver,
`ltmr_start` and `ltmr_stop` return 0 values and leave the whole state as it
was: no call reaches the driver adapter, and the table and the handle are
unchanged. -/
theorem sw_handle_start_stop_noop (env : Env) (w : World) (L p : Nat) (b : tmr_userdata)
    (h1 : lua_index w L 1 = some (Value.userdata p))
    (h2 : w.udata[p]? = some b) (h3 : b.metatable = true)
    (h4 : b.type = some tmr_type.TmrSW) :
    ltmr_start env w L = (w, Result.returned 0) ∧ ltmr_stop env w L = (w, Result.returned 0) := by
  have hc : luaL_checkudata w L 1 = some b := by
    simp [luaL_checkudata, h1, h2, h3]
  simp [ltmr_start, ltmr_stop, hc, h4]

theorem sw_handle_start_stop_noop_witness :
    lua_index swHandleFrame 0 1 = some (Value.userdata 1) ∧
    swHandleFrame.udata[1]? = some ⟨some tmr_type.TmrSW, none, true⟩ ∧
    (ltmr_start failingEnv swHandleFrame 0 = (swHandleFrame, Result.returned 0) ∧
     ltmr_stop failingEnv swHandleFrame 0 = (swHandleFrame, Result.returned 0)) :=
  ⟨by decide, by decide,
    sw_handle_start_stop_noop failingEnv swHandleFrame 0 1 ⟨some tmr_type.TmrSW, none, true⟩
      (by decide) (by decide) rfl rfl⟩

/-- C8: arming failure is not rolled back.  For a unit `u` of the table (a table
that a C `int` can index), a period
of at least 500 (that fits `uint32_t micros`) and a function `cb`, with the handle
block allocated: if the driver's `tmr_setup(u, period, callback_func, 1)` reports
error `e`, then `attach` fails with the driver error `e` (so it returns no
handle), the entry of `u` holds the registry reference created for `cb` in this
call together with the attaching state, that reference yields `cb`, and the
driver has received exactly that one `tmr_setup` call and nothing else. -/
theorem attach_setup_error_keeps_registration (env : Env) (w : World) (L : Nat)
    (u period : Int) (cb e : Nat)
    (hst : w.stack L = [Value.integer u, Value.integer period, Value.function cb])
    (hu0 : 0 ≤ u) (hu1 : u < w.callbacks.length) (hsz : w.callbacks.length ≤ 2147483648)
    (hp0 : 500 ≤ period) (hp1 : period < 4294967296)
    (hok : env.newuserdata_ok = true)
    (hs : env.tmr_setup u period.toNat = some e) :
    (ltmr_attach env w L).2 = Result.driver_error e ∧
    (ltmr_attach env w L).1.entry u =
      some ⟨(w.registry.takeRef (Value.function cb)).2, some L⟩ ∧
    (ltmr_attach env w L).1.registry.get (w.registry.takeRef (Value.function cb)).2 =
      Value.function cb ∧
    (ltmr_attach env w L).1.driver =
      w.driver ++ [DriverCall.tmr_setup u period.toNat Trampoline.callback_func 1] := by
  have h1 : luaL_checkinteger w L 1 = some u := by simp [luaL_checkinteger, lua_index, hst]
  have h2 : luaL_checkinteger w L 2 = some period := by
    simp [luaL_checkinteger, lua_index, hst]
  have h3 : lua_index w L 3 = some (Value.function cb) := by simp [lua_index, hst]
  have hid : toInt32 u = u := toInt32_of_range u (by omega) (by omega)
  have hmv : toUInt32 period = period.toNat := toUInt32_of_range period (by omega) hp1
  have hmic : 500 ≤ toUInt32 period := by rw [hmv]; omega
  obtain ⟨e0, he⟩ := (entry_some_iff w u).mpr ⟨hu0, hu1⟩
  rw [← hid] at he
  have htop : ltmr_attach env w L = ltmr_hw_attach env w L := by
    simp [ltmr_attach, lua_gettop, hst]
  obtain ⟨_, hr, _, _, _, hsucc⟩ := hw_attach_registered env w L u period cb e0 h1 h2 h3 hmic he
  have hent := hw_attach_entry env w L u period cb e0 h1 h2 h3 hmic he u
  obtain ⟨hd, herr, _⟩ := hsucc hok
  rw [hid, hmv] at hd herr
  rw [htop]
  refine ⟨herr e hs, ?_, ?_, hd⟩
  · rw [hent, hid]; simp
  · rw [hr]; exact (takeRef_fresh w.registry (Value.function cb)).2.2

theorem attach_setup_error_keeps_registration_witness :
    attachFrame.stack 0 = [Value.integer 1, Value.integer 50000, Value.function 5] ∧
    failingEnv.tmr_setup 1 (50000 : Int).toNat = some 7 ∧
    ((ltmr_attach failingEnv attachFrame 0).2 = Result.driver_error 7 ∧
     (ltmr_attach failingEnv attachFrame 0).1.entry 1 =
       some ⟨(attachFrame.registry.takeRef (Value.function 5)).2, some 0⟩ ∧
     (ltmr_attach failingEnv attachFrame 0).1.registry.get
         (attachFrame.registry.takeRef (Value.function 5)).2 = Value.function 5 ∧
     (ltmr_attach failingEnv attachFrame 0).1.driver =
       attachFrame.driver ++ [DriverCall.tmr_setup 1 (50000 : Int).toNat Trampoline.callback_func 1]) :=
  ⟨by decide, by decide,
    attach_setup_error_keeps_registration failingEnv attachFrame 0 1 50000 5 7
      (by decide) (by decide) (by decide) (by decide) (by decide) (by decide) rfl (by decide)⟩

/-- C9: `attach` selects its variant by the argument count alone.  With exactly
three arguments it is `ltmr_hw_attach`, and when that returns its handle, the
handle on top of the stack has the metatable, kind `TmrHW` and as unit the first
argument (as the C `int` it is stored in, which is the argument itself whenever
that is in the range of `int`).  With any other argument count it is
`ltmr_sw_attach`: the table, the registry and the driver are untouched, and,
the block being allocated, it returns one value, a handle of kind `TmrSW` pushed
on top of the arguments. -/
theorem attach_selects_by_argument_count (env : Env) (w : World) (L : Nat) :
    (lua_gettop w L = 3 →
      ltmr_attach env w L = ltmr_hw_attach env w L ∧
      ((ltmr_attach env w L).2 = Result.returned 1 →
        ∃ a1, lua_index w L 1 = some (Value.integer a1) ∧
          (ltmr_attach env w L).1.topHandle L =
            some ⟨some tmr_type.TmrHW, some (toInt32 a1), true⟩ ∧
          (-2147483648 ≤ a1 → a1 < 2147483648 → toInt32 a1 = a1))) ∧
    (lua_gettop w L ≠ 3 →
      ltmr_attach env w L = ltmr_sw_attach env w L ∧
      (ltmr_attach env w L).1.callbacks = w.callbacks ∧
      (ltmr_attach env w L).1.registry = w.registry ∧
      (ltmr_attach env w L).1.driver = w.driver ∧
      (env.newuserdata_ok = true →
        (ltmr_attach env w L).2 = Result.returned 1 ∧
        (L < w.threads.length →
          (ltmr_attach env w L).1.topHandle L = some ⟨some tmr_type.TmrSW, none, true⟩ ∧
          (ltmr_attach env w L).1.stack L = w.stack L ++ [Value.userdata w.udata.length]))) := by
  constructor
  · intro h3
    have htop : ltmr_attach env w L = ltmr_hw_attach env w L := by simp [ltmr_attach, h3]
    refine ⟨htop, fun hr => ?_⟩
    rw [htop] at hr ⊢
    obtain ⟨a1, a2, cb, e0, h1, h2, hf, hmic, he, hok, hs⟩ := hw_attach_returned env w L hr
    obtain ⟨_, _, _, _, _, hsucc⟩ := hw_attach_registered env w L a1 a2 cb e0 h1 h2 hf hmic he
    exact ⟨a1, (luaL_checkinteger_iff w L 1 a1).mp h1, ((hsucc hok).2.2 hs).2,
      fun h0 h1 => toInt32_of_range a1 h0 h1⟩
  · intro h3
    have htop : ltmr_attach env w L = ltmr_sw_attach env w L := by simp [ltmr_attach, h3]
    obtain ⟨hc, hd, hr, _, hok⟩ := sw_attach_effect env w L
    rw [htop]
    exact ⟨rfl, hc, hr, hd, hok⟩

theorem attach_selects_by_argument_count_witness :
    lua_gettop attachFrame 0 = 3 ∧
    (ltmr_attach quietEnv attachFrame 0).2 = Result.returned 1 ∧
    (∃ a1, lua_index attachFrame 0 1 = some (Value.integer a1) ∧
      (ltmr_attach quietEnv attachFrame 0).1.topHandle 0 =
        some ⟨some tmr_type.TmrHW, some (toInt32 a1), true⟩ ∧
      (-2147483648 ≤ a1 → a1 < 2147483648 → toInt32 a1 = a1)) ∧
    lua_gettop twoArgFrame 0 ≠ 3 ∧
    (ltmr_attach quietEnv twoArgFrame 0).1.topHandle 0 =
      some ⟨some tmr_type.TmrSW, none, true⟩ :=
  ⟨by decide, by decide,
    ((attach_selects_by_argument_count quietEnv attachFrame 0).1 (by decide)).2 (by decide),
    by decide,
    ((((attach_selects_by_argument_count quietEnv twoArgFrame 0).2 (by decide)).2.2.2.2
      rfl).2 (by decide)).1⟩

end Tmr
